import Mathlib

/-!
GP2040-CE `GamepadState.cpp`: four-way filter and SOCD cleaner

A shallow embedding of `src/gamepad/GamepadState.cpp` and a verification of the
properties its specification states about `filterToFourWayMode` and
`runSOCDCleaner`.

* The function-local statics of `updateDpad` (`inList`, `dpadList`) become the
  explicit state `FourWayState`; the file-level statics `upDownTracker` and
  `leftRightTracker` become the explicit state `SOCDState`.
* `uint8_t` / `uint32_t` values are natural numbers; the only place where
  machine arithmetic can wrap (the `uint32_t` subtraction of the window test)
  is modelled with an explicit reduction modulo `2^32`.
* `getMillis()` is the environment's clock: its result is the parameter
  `currentTime` of `runSOCDCleaner`.
* `dpadMasks[direction-1]` can be indexed out of range, so
  `getMaskFromDirection`, `updateDpad` and `filterToFourWayMode` are fallible
  and return an `Option`.
-/

namespace GamepadState

/-! ## Declarations of `GamepadState.h` used by the source file -/

/-- Modelled from the spec: the enum `DpadDirection` of `GamepadState.h` (the
header is not part of the sources). The spec's data model lists the values
`None, Up, Down, Left, Right` whose ordinals index the per-direction table; the
source comment on `inList` gives the same order (none, up, down, left, right). -/
inductive DpadDirection
  | DIRECTION_NONE
  | DIRECTION_UP
  | DIRECTION_DOWN
  | DIRECTION_LEFT
  | DIRECTION_RIGHT
  deriving DecidableEq

open DpadDirection

/-- Ordinal of a direction (the value of the C enumerator). -/
def DpadDirection.toNat : DpadDirection → Nat
  | DIRECTION_NONE => 0
  | DIRECTION_UP => 1
  | DIRECTION_DOWN => 2
  | DIRECTION_LEFT => 3
  | DIRECTION_RIGHT => 4

/-- Modelled from the spec: the enum `SOCDMode` (declared outside the sources).
The spec's policies are `Bypass`, `UpPriority`, `FirstInputPriority`,
`SecondInputPriority` and the `Neutral` fallback; the source compares the mode
only for equality with the first four. -/
inductive SOCDMode
  | SOCD_MODE_UP_PRIORITY
  | SOCD_MODE_NEUTRAL
  | SOCD_MODE_SECOND_INPUT_PRIORITY
  | SOCD_MODE_FIRST_INPUT_PRIORITY
  | SOCD_MODE_BYPASS
  deriving DecidableEq

open SOCDMode

/-- Modelled from the spec: the macro `GAMEPAD_MASK_UP` of `GamepadState.h`; the
spec gives the bit layout as one bit each for Up, Down, Left, Right, the
remaining bits (4 to 7) being the non-directional ones. -/
def GAMEPAD_MASK_UP : Nat := 1

/-- Modelled from the spec: the macro `GAMEPAD_MASK_DOWN` of `GamepadState.h`
(second directional bit). -/
def GAMEPAD_MASK_DOWN : Nat := 2

/-- Modelled from the spec: the macro `GAMEPAD_MASK_LEFT` of `GamepadState.h`
(third directional bit). -/
def GAMEPAD_MASK_LEFT : Nat := 4

/-- Modelled from the spec: the macro `GAMEPAD_MASK_RIGHT` of `GamepadState.h`
(fourth directional bit). -/
def GAMEPAD_MASK_RIGHT : Nat := 8

/-- Modelled from the spec: the table `dpadMasks` of `GamepadState.h`, the four
direction masks in the order Up, Down, Left, Right, so that
`dpadMasks[direction-1]` is the mask of `direction`. -/
def dpadMasks : List Nat :=
  [GAMEPAD_MASK_UP, GAMEPAD_MASK_DOWN, GAMEPAD_MASK_LEFT, GAMEPAD_MASK_RIGHT]

/-! ## Four-way filter (`GamepadState.cpp`, lines 42 to 91) -/

/-- `getMaskFromDirection`: `dpadMasks[direction-1]`. The index is the signed
integer `direction - 1`; a read outside the table has no defined value and is
`none`. -/
def getMaskFromDirection (direction : DpadDirection) : Option Nat :=
  let i : Int := (direction.toNat : Int) - 1
  if 0 ≤ i then dpadMasks[i.toNat]? else none

/-- The function-local statics of `updateDpad`: `inList` (five flags indexed
by the ordinal of the direction) and `dpadList` (activation order, most recent
last). -/
structure FourWayState where
  inList : List Bool
  dpadList : List DpadDirection
  deriving DecidableEq

/-- Static initialisers: `inList = {false, false, false, false, false}` and an
empty `dpadList`. -/
def FourWayState.init : FourWayState :=
  { inList := [false, false, false, false, false], dpadList := [] }

/-- Read of `inList[direction]`. -/
def FourWayState.held (s : FourWayState) (direction : DpadDirection) : Bool :=
  s.inList.getD direction.toNat false

/-- `updateDpad`: registers a pressed direction that is not yet in the list
(`push_back`), removes a released one (`remove`, every occurrence), then
returns the mask of `dpadList.back()` or `0` when the list is empty. -/
def updateDpad (s : FourWayState) (dpad : Nat) (direction : DpadDirection) :
    Option (Nat × FourWayState) :=
  (getMaskFromDirection direction).bind fun m =>
    let s1 : FourWayState :=
      if dpad &&& m ≠ 0 then
        if !s.held direction then
          { dpadList := s.dpadList ++ [direction],
            inList := s.inList.set direction.toNat true }
        else s
      else
        if s.held direction then
          { dpadList := s.dpadList.filter (fun d => d ≠ direction),
            inList := s.inList.set direction.toNat false }
        else s
    match s1.dpadList.getLast? with
    | none => some (0, s1)
    | some last => (getMaskFromDirection last).map fun r => (r, s1)

/-- `filterToFourWayMode`: four `updateDpad` steps in the order Up, Down, Left,
Right; the value of the last one is returned. -/
def filterToFourWayMode (s : FourWayState) (dpad : Nat) : Option (Nat × FourWayState) :=
  (updateDpad s dpad DIRECTION_UP).bind fun p1 =>
  (updateDpad p1.2 dpad DIRECTION_DOWN).bind fun p2 =>
  (updateDpad p2.2 dpad DIRECTION_LEFT).bind fun p3 =>
  updateDpad p3.2 dpad DIRECTION_RIGHT

/-- A sequence of `filterToFourWayMode` calls, one per input mask, threading
the static state; returns the list of returned masks and the final state. -/
def filterCalls (s : FourWayState) : List Nat → Option (List Nat × FourWayState)
  | [] => some ([], s)
  | dpad :: rest =>
    (filterToFourWayMode s dpad).bind fun p =>
    (filterCalls p.2 rest).map fun q => (p.1 :: q.1, q.2)

/-! ## SOCD cleaner (`GamepadState.cpp`, lines 100 to 195) -/

/-- `struct NeutralTracker`, with its default member initialisers. The member
`NEUTRAL_THRESHOLD_MS` is `const` and is the function below. -/
structure NeutralTracker where
  lastInputTime : Nat := 0
  lastDirection : DpadDirection := DIRECTION_NONE
  deriving DecidableEq

/-- `const uint32_t NEUTRAL_THRESHOLD_MS = 10`, the same in every tracker. -/
def NeutralTracker.NEUTRAL_THRESHOLD_MS (_ : NeutralTracker) : Nat := 10

/-- The two file-level statics `upDownTracker` and `leftRightTracker`. -/
structure SOCDState where
  upDownTracker : NeutralTracker := {}
  leftRightTracker : NeutralTracker := {}
  deriving DecidableEq

/-- Both trackers as statically initialised. -/
def SOCDState.init : SOCDState := {}

/-- Subtraction of two `uint32_t` values: the difference modulo `2^32`. -/
def sub32 (a b : Nat) : Nat :=
  (a % 4294967296 + (4294967296 - b % 4294967296)) % 4294967296

/-- The statement `newDpad &= ~mask` on a `uint8_t`: the operand is promoted to
a 32-bit `int`, complemented, and the result is stored back in eight bits. -/
def clearBits (newDpad mask : Nat) : Nat :=
  (newDpad &&& (4294967295 ^^^ mask)) % 256

/-- The first `switch` of `runSOCDCleaner` (lines 122 to 158): the vertical
axis. Takes and returns `newDpad` and `upDownTracker`. -/
def cleanUpDown (mode : SOCDMode) (dpad currentTime newDpad : Nat)
    (upDownTracker : NeutralTracker) : Nat × NeutralTracker :=
  let sw := dpad &&& (GAMEPAD_MASK_UP ||| GAMEPAD_MASK_DOWN)
  if sw = (GAMEPAD_MASK_UP ||| GAMEPAD_MASK_DOWN) then
    if sub32 currentTime upDownTracker.lastInputTime ≤ upDownTracker.NEUTRAL_THRESHOLD_MS then
      (0, { upDownTracker with lastDirection := DIRECTION_NONE })
    else if mode = SOCD_MODE_UP_PRIORITY then
      (newDpad ||| GAMEPAD_MASK_UP, { upDownTracker with lastDirection := DIRECTION_UP })
    else if mode = SOCD_MODE_SECOND_INPUT_PRIORITY
        ∧ upDownTracker.lastDirection ≠ DIRECTION_NONE then
      (newDpad ||| (if upDownTracker.lastDirection = DIRECTION_UP
          then GAMEPAD_MASK_DOWN else GAMEPAD_MASK_UP), upDownTracker)
    else if mode = SOCD_MODE_FIRST_INPUT_PRIORITY
        ∧ upDownTracker.lastDirection ≠ DIRECTION_NONE then
      (newDpad ||| (if upDownTracker.lastDirection = DIRECTION_UP
          then GAMEPAD_MASK_UP else GAMEPAD_MASK_DOWN), upDownTracker)
    else
      (newDpad, { upDownTracker with lastDirection := DIRECTION_NONE })
  else if sw = GAMEPAD_MASK_UP then
    (newDpad ||| GAMEPAD_MASK_UP,
      { upDownTracker with lastDirection := DIRECTION_UP, lastInputTime := currentTime })
  else if sw = GAMEPAD_MASK_DOWN then
    (newDpad ||| GAMEPAD_MASK_DOWN,
      { upDownTracker with lastDirection := DIRECTION_DOWN, lastInputTime := currentTime })
  else
    (newDpad, { upDownTracker with lastDirection := DIRECTION_NONE })

/-- The second `switch` of `runSOCDCleaner` (lines 161 to 192): the horizontal
axis. Takes and returns `newDpad` and `leftRightTracker`. -/
def cleanLeftRight (mode : SOCDMode) (dpad currentTime newDpad : Nat)
    (leftRightTracker : NeutralTracker) : Nat × NeutralTracker :=
  let sw := dpad &&& (GAMEPAD_MASK_LEFT ||| GAMEPAD_MASK_RIGHT)
  if sw = (GAMEPAD_MASK_LEFT ||| GAMEPAD_MASK_RIGHT) then
    if sub32 currentTime leftRightTracker.lastInputTime
        ≤ leftRightTracker.NEUTRAL_THRESHOLD_MS then
      (clearBits newDpad (GAMEPAD_MASK_LEFT ||| GAMEPAD_MASK_RIGHT),
        { leftRightTracker with lastDirection := DIRECTION_NONE })
    else if mode = SOCD_MODE_SECOND_INPUT_PRIORITY
        ∧ leftRightTracker.lastDirection ≠ DIRECTION_NONE then
      (newDpad ||| (if leftRightTracker.lastDirection = DIRECTION_LEFT
          then GAMEPAD_MASK_RIGHT else GAMEPAD_MASK_LEFT), leftRightTracker)
    else if mode = SOCD_MODE_FIRST_INPUT_PRIORITY
        ∧ leftRightTracker.lastDirection ≠ DIRECTION_NONE then
      (newDpad ||| (if leftRightTracker.lastDirection = DIRECTION_LEFT
          then GAMEPAD_MASK_LEFT else GAMEPAD_MASK_RIGHT), leftRightTracker)
    else
      (newDpad, { leftRightTracker with lastDirection := DIRECTION_NONE })
  else if sw = GAMEPAD_MASK_LEFT then
    (newDpad ||| GAMEPAD_MASK_LEFT,
      { leftRightTracker with lastDirection := DIRECTION_LEFT, lastInputTime := currentTime })
  else if sw = GAMEPAD_MASK_RIGHT then
    (newDpad ||| GAMEPAD_MASK_RIGHT,
      { leftRightTracker with lastDirection := DIRECTION_RIGHT, lastInputTime := currentTime })
  else
    (newDpad, { leftRightTracker with lastDirection := DIRECTION_NONE })

/-- `runSOCDCleaner`: Bypass returns `dpad` before anything else is done (the
clock is not read, no tracker is written); otherwise `newDpad` starts at `0`
and goes through the vertical and then the horizontal `switch`. `currentTime`
is the value `getMillis()` returns in this call. -/
def runSOCDCleaner (mode : SOCDMode) (dpad currentTime : Nat) (s : SOCDState) :
    Nat × SOCDState :=
  if mode = SOCD_MODE_BYPASS then (dpad, s)
  else
    let newDpad : Nat := 0
    let v := cleanUpDown mode dpad currentTime newDpad s.upDownTracker
    let h := cleanLeftRight mode dpad currentTime v.1 s.leftRightTracker
    (h.1, { upDownTracker := v.2, leftRightTracker := h.2 })

/-- One call of a sequence: the mode, the input mask and the clock value. -/
structure SOCDCall where
  mode : SOCDMode
  dpad : Nat
  currentTime : Nat
  deriving DecidableEq

/-- A sequence of `runSOCDCleaner` calls threading the two trackers; returns
the returned masks in call order and the final state. -/
def socdCalls (s : SOCDState) : List SOCDCall → List Nat × SOCDState
  | [] => ([], s)
  | c :: rest =>
    let p := runSOCDCleaner c.mode c.dpad c.currentTime s
    let q := socdCalls p.2 rest
    (p.1 :: q.1, q.2)

/-! ## Vocabulary of the specification -/

/-- The two axes of the spec's data model: the vertical pair Up, Down and the
horizontal pair Left, Right. -/
inductive Axis
  | Vertical
  | Horizontal
  deriving DecidableEq

/-- The two bits of an axis in the mask. -/
def Axis.mask : Axis → Nat
  | Axis.Vertical => GAMEPAD_MASK_UP ||| GAMEPAD_MASK_DOWN
  | Axis.Horizontal => GAMEPAD_MASK_LEFT ||| GAMEPAD_MASK_RIGHT

/-- Whether a direction is one of the two directions of the axis. -/
def Axis.has : Axis → DpadDirection → Bool
  | Axis.Vertical, DIRECTION_UP => true
  | Axis.Vertical, DIRECTION_DOWN => true
  | Axis.Horizontal, DIRECTION_LEFT => true
  | Axis.Horizontal, DIRECTION_RIGHT => true
  | _, _ => false

/-- The tracker of an axis: `upDownTracker` for the vertical axis,
`leftRightTracker` for the horizontal one. -/
def SOCDState.tracker (s : SOCDState) : Axis → NeutralTracker
  | Axis.Vertical => s.upDownTracker
  | Axis.Horizontal => s.leftRightTracker

/-- The mask bit that stands for a direction in an output, `0` for no
direction. -/
def dirMask : DpadDirection → Nat
  | DIRECTION_NONE => 0
  | DIRECTION_UP => GAMEPAD_MASK_UP
  | DIRECTION_DOWN => GAMEPAD_MASK_DOWN
  | DIRECTION_LEFT => GAMEPAD_MASK_LEFT
  | DIRECTION_RIGHT => GAMEPAD_MASK_RIGHT

/-- The direction opposite to a direction on its axis (Down for Up, Up for
Down, Right for Left, Left for Right). -/
def opposite : DpadDirection → DpadDirection
  | DIRECTION_NONE => DIRECTION_NONE
  | DIRECTION_UP => DIRECTION_DOWN
  | DIRECTION_DOWN => DIRECTION_UP
  | DIRECTION_LEFT => DIRECTION_RIGHT
  | DIRECTION_RIGHT => DIRECTION_LEFT

/-- The policy-determined winner of a conflict outside the neutral window, as
the spec words it (section 4.2, step 3b): Up under `UpPriority` on the vertical
axis; the opposite of the remembered direction under `SecondInputPriority`; the
remembered direction under `FirstInputPriority`; otherwise no direction. -/
def policyWinner (mode : SOCDMode) (axis : Axis) (lastDirection : DpadDirection) :
    DpadDirection :=
  if mode = SOCD_MODE_UP_PRIORITY ∧ axis = Axis.Vertical then DIRECTION_UP
  else if mode = SOCD_MODE_SECOND_INPUT_PRIORITY ∧ lastDirection ≠ DIRECTION_NONE then
    opposite lastDirection
  else if mode = SOCD_MODE_FIRST_INPUT_PRIORITY ∧ lastDirection ≠ DIRECTION_NONE then
    lastDirection
  else DIRECTION_NONE

/-- A mask that is `0` or exactly one of the four direction masks. -/
def IsCardinalOrZero (r : Nat) : Prop :=
  r = 0 ∨ r = GAMEPAD_MASK_UP ∨ r = GAMEPAD_MASK_DOWN ∨ r = GAMEPAD_MASK_LEFT
    ∨ r = GAMEPAD_MASK_RIGHT

/-- The bits of the 8-bit word that are not directional (bits 4 to 7). -/
def buttonBits : Nat :=
  255 ^^^ (GAMEPAD_MASK_UP ||| GAMEPAD_MASK_DOWN ||| GAMEPAD_MASK_LEFT ||| GAMEPAD_MASK_RIGHT)

/-- The trackers after the first call of the spec's scenarios: from the
initial state, Up alone at clock value `0` in the given mode. -/
def afterUpAlone (mode : SOCDMode) : SOCDState :=
  (runSOCDCleaner mode GAMEPAD_MASK_UP 0 SOCDState.init).2

/-- Every remembered direction belongs to the axis of its tracker (or is
none). -/
def TrackersOnAxis (s : SOCDState) : Prop :=
  ∀ axis : Axis, (s.tracker axis).lastDirection = DIRECTION_NONE
    ∨ axis.has (s.tracker axis).lastDirection = true

/-! ## Vocabulary of the specification: the four-way filter -/

/-- Whether the bit of a direction is set in a mask (never for no direction). -/
def pressed (dpad : Nat) (d : DpadDirection) : Bool :=
  decide (dpad &&& dirMask d ≠ 0)

/-- The mask of the last direction of a history, `0` for the empty history. -/
def lastMask (history : List DpadDirection) : Nat :=
  match history.getLast? with
  | none => 0
  | some d => dirMask d

/-- The history after a call as the spec words it (section 4.1): the old
history without the directions whose bit is clear in the input, followed by
the directions whose bit is set and that were not held, in the fixed order Up,
Down, Left, Right. -/
def fourWayHistory (s : FourWayState) (dpad : Nat) : List DpadDirection :=
  s.dpadList.filter (fun d => pressed dpad d)
    ++ [DIRECTION_UP, DIRECTION_DOWN, DIRECTION_LEFT, DIRECTION_RIGHT].filter
        (fun d => pressed dpad d && !s.held d)

/-- The held flags and the history agree: the history holds exactly the
cardinal directions whose flag is set. -/
def FourWayState.Agrees (s : FourWayState) : Prop :=
  ∀ d : DpadDirection, d ∈ s.dpadList ↔ (d ≠ DIRECTION_NONE ∧ s.held d = true)

/-- The state that one `updateDpad` step leaves behind (the two branches of
lines 52 to 67), apart from the returned mask. -/
def updateDpadState (s : FourWayState) (dpad : Nat) (direction : DpadDirection) :
    FourWayState :=
  if pressed dpad direction then
    if !s.held direction then
      { dpadList := s.dpadList ++ [direction],
        inList := s.inList.set direction.toNat true }
    else s
  else
    if s.held direction then
      { dpadList := s.dpadList.filter (fun d => d ≠ direction),
        inList := s.inList.set direction.toNat false }
    else s

/-- The state after the four steps of a `filterToFourWayMode` call. -/
def filterState (s : FourWayState) (dpad : Nat) : FourWayState :=
  updateDpadState
    (updateDpadState
      (updateDpadState (updateDpadState s dpad DIRECTION_UP) dpad DIRECTION_DOWN)
      dpad DIRECTION_LEFT)
    dpad DIRECTION_RIGHT

/-- The invariant of the filter state: the flag array has its five entries,
the history holds only Up, Down, Left, Right, each at most once (so at most
four entries), and a direction is in the history exactly when its flag is
set. -/
def FourWayState.Valid (s : FourWayState) : Prop :=
  s.inList.length = 5
    ∧ (∀ d ∈ s.dpadList, d ≠ DIRECTION_NONE)
    ∧ s.dpadList.Nodup
    ∧ s.dpadList.length ≤ 4
    ∧ ∀ d : DpadDirection, d ∈ s.dpadList ↔ s.held d = true

/-! ## Auxiliary lemmas: the two bits of an axis -/

theorem and_three_cases (x : Nat) :
    x &&& 3 = 0 ∨ x &&& 3 = 1 ∨ x &&& 3 = 2 ∨ x &&& 3 = 3 := by
  have h1 : x &&& 3 ≤ 3 := Nat.and_le_right
  generalize x &&& 3 = v at h1
  interval_cases v <;> simp

theorem and_twelve_cases (x : Nat) :
    x &&& 12 = 0 ∨ x &&& 12 = 4 ∨ x &&& 12 = 8 ∨ x &&& 12 = 12 := by
  have h1 : x &&& 12 ≤ 12 := Nat.and_le_right
  have h2 : (x &&& 12) &&& 12 = x &&& 12 := by
    rw [Nat.and_assoc, Nat.and_self]
  generalize x &&& 12 = v at h1 h2
  interval_cases v <;> revert h2 <;> decide

/-- On clock values of a non-decreasing 32-bit clock the `uint32_t` difference
is the plain difference. -/
theorem sub32_eq_sub (now last : Nat) (h1 : last ≤ now) (h2 : now < 4294967296) :
    sub32 now last = now - last := by
  unfold sub32
  omega

/-! ## Auxiliary lemmas: the branches of the two switches -/

theorem cleanUpDown_both (mode : SOCDMode) (dpad t nd : Nat) (tr : NeutralTracker)
    (h : dpad &&& (GAMEPAD_MASK_UP ||| GAMEPAD_MASK_DOWN)
      = GAMEPAD_MASK_UP ||| GAMEPAD_MASK_DOWN) :
    cleanUpDown mode dpad t nd tr =
      if sub32 t tr.lastInputTime ≤ 10 then
        (0, { tr with lastDirection := DIRECTION_NONE })
      else if mode = SOCD_MODE_UP_PRIORITY then
        (nd ||| GAMEPAD_MASK_UP, { tr with lastDirection := DIRECTION_UP })
      else if mode = SOCD_MODE_SECOND_INPUT_PRIORITY ∧ tr.lastDirection ≠ DIRECTION_NONE then
        (nd ||| (if tr.lastDirection = DIRECTION_UP
          then GAMEPAD_MASK_DOWN else GAMEPAD_MASK_UP), tr)
      else if mode = SOCD_MODE_FIRST_INPUT_PRIORITY ∧ tr.lastDirection ≠ DIRECTION_NONE then
        (nd ||| (if tr.lastDirection = DIRECTION_UP
          then GAMEPAD_MASK_UP else GAMEPAD_MASK_DOWN), tr)
      else (nd, { tr with lastDirection := DIRECTION_NONE }) := by
  unfold cleanUpDown
  simp only [h, if_true, NeutralTracker.NEUTRAL_THRESHOLD_MS]

theorem cleanLeftRight_both (mode : SOCDMode) (dpad t nd : Nat) (tr : NeutralTracker)
    (h : dpad &&& (GAMEPAD_MASK_LEFT ||| GAMEPAD_MASK_RIGHT)
      = GAMEPAD_MASK_LEFT ||| GAMEPAD_MASK_RIGHT) :
    cleanLeftRight mode dpad t nd tr =
      if sub32 t tr.lastInputTime ≤ 10 then
        (clearBits nd (GAMEPAD_MASK_LEFT ||| GAMEPAD_MASK_RIGHT),
          { tr with lastDirection := DIRECTION_NONE })
      else if mode = SOCD_MODE_SECOND_INPUT_PRIORITY ∧ tr.lastDirection ≠ DIRECTION_NONE then
        (nd ||| (if tr.lastDirection = DIRECTION_LEFT
          then GAMEPAD_MASK_RIGHT else GAMEPAD_MASK_LEFT), tr)
      else if mode = SOCD_MODE_FIRST_INPUT_PRIORITY ∧ tr.lastDirection ≠ DIRECTION_NONE then
        (nd ||| (if tr.lastDirection = DIRECTION_LEFT
          then GAMEPAD_MASK_LEFT else GAMEPAD_MASK_RIGHT), tr)
      else (nd, { tr with lastDirection := DIRECTION_NONE }) := by
  unfold cleanLeftRight
  simp only [h, if_true, NeutralTracker.NEUTRAL_THRESHOLD_MS]

theorem cleanUpDown_free (mode : SOCDMode) (dpad t nd : Nat) (tr : NeutralTracker)
    (h : dpad &&& (GAMEPAD_MASK_UP ||| GAMEPAD_MASK_DOWN)
      ≠ GAMEPAD_MASK_UP ||| GAMEPAD_MASK_DOWN) :
    cleanUpDown mode dpad t nd tr =
      if dpad &&& (GAMEPAD_MASK_UP ||| GAMEPAD_MASK_DOWN) = GAMEPAD_MASK_UP then
        (nd ||| GAMEPAD_MASK_UP, { lastInputTime := t, lastDirection := DIRECTION_UP })
      else if dpad &&& (GAMEPAD_MASK_UP ||| GAMEPAD_MASK_DOWN) = GAMEPAD_MASK_DOWN then
        (nd ||| GAMEPAD_MASK_DOWN, { lastInputTime := t, lastDirection := DIRECTION_DOWN })
      else (nd, { tr with lastDirection := DIRECTION_NONE }) := by
  unfold cleanUpDown
  simp only [h, if_false]

theorem cleanLeftRight_free (mode : SOCDMode) (dpad t nd : Nat) (tr : NeutralTracker)
    (h : dpad &&& (GAMEPAD_MASK_LEFT ||| GAMEPAD_MASK_RIGHT)
      ≠ GAMEPAD_MASK_LEFT ||| GAMEPAD_MASK_RIGHT) :
    cleanLeftRight mode dpad t nd tr =
      if dpad &&& (GAMEPAD_MASK_LEFT ||| GAMEPAD_MASK_RIGHT) = GAMEPAD_MASK_LEFT then
        (nd ||| GAMEPAD_MASK_LEFT, { lastInputTime := t, lastDirection := DIRECTION_LEFT })
      else if dpad &&& (GAMEPAD_MASK_LEFT ||| GAMEPAD_MASK_RIGHT) = GAMEPAD_MASK_RIGHT then
        (nd ||| GAMEPAD_MASK_RIGHT, { lastInputTime := t, lastDirection := DIRECTION_RIGHT })
      else (nd, { tr with lastDirection := DIRECTION_NONE }) := by
  unfold cleanLeftRight
  simp only [h, if_false]

theorem cleanUpDown_fst_le (mode : SOCDMode) (dpad t : Nat) (tr : NeutralTracker) :
    (cleanUpDown mode dpad t 0 tr).1 = 0 ∨ (cleanUpDown mode dpad t 0 tr).1 = 1
      ∨ (cleanUpDown mode dpad t 0 tr).1 = 2 := by
  unfold cleanUpDown
  simp only [GAMEPAD_MASK_UP, GAMEPAD_MASK_DOWN]
  split_ifs <;> simp

theorem cleanLeftRight_fst_cases (mode : SOCDMode) (dpad t : Nat) (tr : NeutralTracker) :
    (cleanLeftRight mode dpad t 0 tr).1 = 0 ∨ (cleanLeftRight mode dpad t 0 tr).1 = 4
      ∨ (cleanLeftRight mode dpad t 0 tr).1 = 8 := by
  unfold cleanLeftRight
  simp only [GAMEPAD_MASK_LEFT, GAMEPAD_MASK_RIGHT, clearBits]
  split_ifs <;> simp

theorem cleanLeftRight_frame (mode : SOCDMode) (dpad t v : Nat) (tr : NeutralTracker)
    (hv : v = 0 ∨ v = 1 ∨ v = 2) :
    cleanLeftRight mode dpad t v tr
      = (v ||| (cleanLeftRight mode dpad t 0 tr).1, (cleanLeftRight mode dpad t 0 tr).2) := by
  unfold cleanLeftRight
  simp only [GAMEPAD_MASK_LEFT, GAMEPAD_MASK_RIGHT, clearBits]
  rcases hv with h | h | h <;> subst h <;> split_ifs <;> first | (simp; done) | (simp; rfl)

/-! ## Auxiliary lemmas: a call as the two axis steps -/

theorem runSOCDCleaner_fst (mode : SOCDMode) (dpad t : Nat) (s : SOCDState)
    (hm : mode ≠ SOCD_MODE_BYPASS) :
    (runSOCDCleaner mode dpad t s).1
      = (cleanUpDown mode dpad t 0 s.upDownTracker).1
        ||| (cleanLeftRight mode dpad t 0 s.leftRightTracker).1 := by
  simp only [runSOCDCleaner, if_neg hm]
  rw [cleanLeftRight_frame _ _ _ _ _ (cleanUpDown_fst_le mode dpad t s.upDownTracker)]

theorem runSOCDCleaner_upDown (mode : SOCDMode) (dpad t : Nat) (s : SOCDState)
    (hm : mode ≠ SOCD_MODE_BYPASS) :
    (runSOCDCleaner mode dpad t s).2.upDownTracker
      = (cleanUpDown mode dpad t 0 s.upDownTracker).2 := by
  simp only [runSOCDCleaner, if_neg hm]

theorem runSOCDCleaner_leftRight (mode : SOCDMode) (dpad t : Nat) (s : SOCDState)
    (hm : mode ≠ SOCD_MODE_BYPASS) :
    (runSOCDCleaner mode dpad t s).2.leftRightTracker
      = (cleanLeftRight mode dpad t 0 s.leftRightTracker).2 := by
  simp only [runSOCDCleaner, if_neg hm]
  rw [cleanLeftRight_frame _ _ _ _ _ (cleanUpDown_fst_le mode dpad t s.upDownTracker)]

theorem runSOCDCleaner_vertical_bits (mode : SOCDMode) (dpad t : Nat) (s : SOCDState)
    (hm : mode ≠ SOCD_MODE_BYPASS) :
    (runSOCDCleaner mode dpad t s).1 &&& (GAMEPAD_MASK_UP ||| GAMEPAD_MASK_DOWN)
      = (cleanUpDown mode dpad t 0 s.upDownTracker).1 := by
  rw [runSOCDCleaner_fst mode dpad t s hm]
  rcases cleanUpDown_fst_le mode dpad t s.upDownTracker with h | h | h <;>
    rcases cleanLeftRight_fst_cases mode dpad t s.leftRightTracker with k | k | k <;>
    rw [h, k] <;> decide

theorem runSOCDCleaner_horizontal_bits (mode : SOCDMode) (dpad t : Nat) (s : SOCDState)
    (hm : mode ≠ SOCD_MODE_BYPASS) :
    (runSOCDCleaner mode dpad t s).1 &&& (GAMEPAD_MASK_LEFT ||| GAMEPAD_MASK_RIGHT)
      = (cleanLeftRight mode dpad t 0 s.leftRightTracker).1 := by
  rw [runSOCDCleaner_fst mode dpad t s hm]
  rcases cleanUpDown_fst_le mode dpad t s.upDownTracker with h | h | h <;>
    rcases cleanLeftRight_fst_cases mode dpad t s.leftRightTracker with k | k | k <;>
    rw [h, k] <;> decide

theorem runSOCDCleaner_axis_bits (mode : SOCDMode) (dpad t : Nat) (s : SOCDState)
    (hm : mode ≠ SOCD_MODE_BYPASS) (axis : Axis) :
    (runSOCDCleaner mode dpad t s).1 &&& axis.mask
      = match axis with
        | Axis.Vertical => (cleanUpDown mode dpad t 0 s.upDownTracker).1
        | Axis.Horizontal => (cleanLeftRight mode dpad t 0 s.leftRightTracker).1 := by
  cases axis
  · exact runSOCDCleaner_vertical_bits mode dpad t s hm
  · exact runSOCDCleaner_horizontal_bits mode dpad t s hm

theorem runSOCDCleaner_axis_tracker (mode : SOCDMode) (dpad t : Nat) (s : SOCDState)
    (hm : mode ≠ SOCD_MODE_BYPASS) (axis : Axis) :
    (runSOCDCleaner mode dpad t s).2.tracker axis
      = match axis with
        | Axis.Vertical => (cleanUpDown mode dpad t 0 s.upDownTracker).2
        | Axis.Horizontal => (cleanLeftRight mode dpad t 0 s.leftRightTracker).2 := by
  cases axis
  · exact runSOCDCleaner_upDown mode dpad t s hm
  · exact runSOCDCleaner_leftRight mode dpad t s hm

theorem priority_step (mode : SOCDMode) (dpad t : Nat) (s : SOCDState) (axis : Axis)
    (D : DpadDirection) (hD : axis.has D = true)
    (hlast : (s.tracker axis).lastDirection = D)
    (hboth : dpad &&& axis.mask = axis.mask)
    (hout : 10 < sub32 t (s.tracker axis).lastInputTime)
    (hmode : mode = SOCD_MODE_FIRST_INPUT_PRIORITY ∨ mode = SOCD_MODE_SECOND_INPUT_PRIORITY) :
    (runSOCDCleaner mode dpad t s).1 &&& axis.mask
        = dirMask (if mode = SOCD_MODE_FIRST_INPUT_PRIORITY then D else opposite D)
      ∧ (runSOCDCleaner mode dpad t s).2.tracker axis = s.tracker axis := by
  have hm : mode ≠ SOCD_MODE_BYPASS := by rcases hmode with h | h <;> rw [h] <;> decide
  rw [runSOCDCleaner_axis_bits mode dpad t s hm axis,
    runSOCDCleaner_axis_tracker mode dpad t s hm axis]
  cases axis
  · simp only [SOCDState.tracker] at hlast hout ⊢
    simp only [cleanUpDown_both mode dpad t 0 _ hboth, if_neg (not_le.mpr hout)]
    rcases hmode with h | h <;> subst h <;> cases D <;>
      simp_all [dirMask, opposite, Axis.has, GAMEPAD_MASK_UP, GAMEPAD_MASK_DOWN]
  · simp only [SOCDState.tracker] at hlast hout ⊢
    simp only [cleanLeftRight_both mode dpad t 0 _ hboth, if_neg (not_le.mpr hout)]
    rcases hmode with h | h <;> subst h <;> cases D <;>
      simp_all [dirMask, opposite, Axis.has, GAMEPAD_MASK_LEFT, GAMEPAD_MASK_RIGHT]

theorem socdCalls_axis_constant (axis : Axis) (T : NeutralTracker) (m : Nat)
    (P : SOCDCall → Prop)
    (hstep : ∀ (c : SOCDCall) (s : SOCDState), P c → s.tracker axis = T →
      (runSOCDCleaner c.mode c.dpad c.currentTime s).1 &&& axis.mask = m
        ∧ (runSOCDCleaner c.mode c.dpad c.currentTime s).2.tracker axis = T)
    (calls : List SOCDCall) :
    ∀ s : SOCDState, (∀ c ∈ calls, P c) → s.tracker axis = T →
      (socdCalls s calls).1.length = calls.length
        ∧ (∀ r ∈ (socdCalls s calls).1, r &&& axis.mask = m)
        ∧ (socdCalls s calls).2.tracker axis = T := by
  induction calls with
  | nil =>
    intro s _ hs
    exact ⟨rfl, by simp [socdCalls], hs⟩
  | cons c rest ih =>
    intro s hall hs
    obtain ⟨h1, h2⟩ := hstep c s (hall c (List.mem_cons_self c rest)) hs
    obtain ⟨k0, k1, k2⟩ := ih _ (fun x hx => hall x (List.mem_cons_of_mem c hx)) h2
    refine ⟨by simp [socdCalls, k0], ?_, by simpa [socdCalls] using k2⟩
    intro r hr
    simp only [socdCalls, List.mem_cons] at hr
    rcases hr with hr | hr
    · exact hr ▸ h1
    · exact k1 r hr

/-- A call keeps every remembered direction on the axis of its tracker. -/
theorem runSOCDCleaner_trackersOnAxis (mode : SOCDMode) (dpad t : Nat) (s : SOCDState)
    (hs : TrackersOnAxis s) : TrackersOnAxis (runSOCDCleaner mode dpad t s).2 := by
  by_cases hm : mode = SOCD_MODE_BYPASS
  · simpa [runSOCDCleaner, hm] using hs
  · intro axis
    rw [runSOCDCleaner_axis_tracker mode dpad t s hm axis]
    have h := hs axis
    cases axis
    · simp only [SOCDState.tracker] at h ⊢
      by_cases hb : dpad &&& (GAMEPAD_MASK_UP ||| GAMEPAD_MASK_DOWN)
          = GAMEPAD_MASK_UP ||| GAMEPAD_MASK_DOWN
      · rw [cleanUpDown_both mode dpad t 0 _ hb]
        split_ifs <;> first | exact h | exact Or.inl rfl | exact Or.inr rfl
      · rw [cleanUpDown_free mode dpad t 0 _ hb]
        split_ifs <;> first | exact Or.inl rfl | exact Or.inr rfl
    · simp only [SOCDState.tracker] at h ⊢
      by_cases hb : dpad &&& (GAMEPAD_MASK_LEFT ||| GAMEPAD_MASK_RIGHT)
          = GAMEPAD_MASK_LEFT ||| GAMEPAD_MASK_RIGHT
      · rw [cleanLeftRight_both mode dpad t 0 _ hb]
        split_ifs <;> first | exact h | exact Or.inl rfl
      · rw [cleanLeftRight_free mode dpad t 0 _ hb]
        split_ifs <;> first | exact Or.inl rfl | exact Or.inr rfl

/-- Every state reached from the initial trackers keeps every remembered
direction on the axis of its tracker. -/
theorem socdCalls_trackersOnAxis (calls : List SOCDCall) :
    ∀ s : SOCDState, TrackersOnAxis s → TrackersOnAxis (socdCalls s calls).2 := by
  induction calls with
  | nil => intro s hs; exact hs
  | cons c rest ih =>
    intro s hs
    exact ih _ (runSOCDCleaner_trackersOnAxis c.mode c.dpad c.currentTime s hs)

/-- The statically initialised trackers remember no direction, so every state
reached from them by calls keeps its remembered directions on their axes. -/
theorem socdCalls_init_trackersOnAxis (calls : List SOCDCall) :
    TrackersOnAxis (socdCalls SOCDState.init calls).2 :=
  socdCalls_trackersOnAxis calls SOCDState.init (fun axis => by cases axis <;> exact Or.inl rfl)

/-! ## Auxiliary lemmas: the four-way filter runs to completion -/

theorem getMaskFromDirection_some (d : DpadDirection) (hd : d ≠ DIRECTION_NONE) :
    ∃ m, getMaskFromDirection d = some m
      ∧ (m = GAMEPAD_MASK_UP ∨ m = GAMEPAD_MASK_DOWN ∨ m = GAMEPAD_MASK_LEFT
          ∨ m = GAMEPAD_MASK_RIGHT) := by
  cases d
  · exact absurd rfl hd
  · exact ⟨GAMEPAD_MASK_UP, rfl, Or.inl rfl⟩
  · exact ⟨GAMEPAD_MASK_DOWN, rfl, Or.inr (Or.inl rfl)⟩
  · exact ⟨GAMEPAD_MASK_LEFT, rfl, Or.inr (Or.inr (Or.inl rfl))⟩
  · exact ⟨GAMEPAD_MASK_RIGHT, rfl, Or.inr (Or.inr (Or.inr rfl))⟩

theorem updateDpad_total (s : FourWayState) (dpad : Nat) (direction : DpadDirection)
    (hd : direction ≠ DIRECTION_NONE) (hs : DIRECTION_NONE ∉ s.dpadList) :
    ∃ r s1, updateDpad s dpad direction = some (r, s1)
      ∧ DIRECTION_NONE ∉ s1.dpadList ∧ IsCardinalOrZero r := by
  obtain ⟨m, hm, -⟩ := getMaskFromDirection_some direction hd
  simp only [updateDpad, hm, Option.some_bind]
  generalize hs1 : (if dpad &&& m ≠ 0 then
        if (!s.held direction) = true then
          ({ dpadList := s.dpadList ++ [direction],
             inList := s.inList.set direction.toNat true } : FourWayState)
        else s
      else
        if s.held direction = true then
          { dpadList := s.dpadList.filter (fun d => d ≠ direction),
            inList := s.inList.set direction.toNat false }
        else s) = s1
  have h1 : DIRECTION_NONE ∉ s1.dpadList := by
    subst hs1
    split_ifs
    · simp only [List.mem_append, List.mem_singleton, not_or]
      exact ⟨hs, fun h => hd h.symm⟩
    · exact hs
    · intro h
      exact hs (List.mem_of_mem_filter h)
    · exact hs
  cases hl : s1.dpadList.getLast? with
  | none => exact ⟨0, s1, rfl, h1, Or.inl rfl⟩
  | some last =>
    have hmem : last ∈ s1.dpadList := List.mem_of_getLast?_eq_some hl
    have hne : last ≠ DIRECTION_NONE := fun h => h1 (h ▸ hmem)
    obtain ⟨r, hr, hcase⟩ := getMaskFromDirection_some last hne
    exact ⟨r, s1, by simp [hr], h1, Or.inr hcase⟩

theorem filterToFourWayMode_total (s : FourWayState) (dpad : Nat)
    (hs : DIRECTION_NONE ∉ s.dpadList) :
    ∃ r s1, filterToFourWayMode s dpad = some (r, s1)
      ∧ DIRECTION_NONE ∉ s1.dpadList ∧ IsCardinalOrZero r := by
  obtain ⟨r1, s1, e1, h1, -⟩ := updateDpad_total s dpad DIRECTION_UP (by decide) hs
  obtain ⟨r2, s2, e2, h2, -⟩ := updateDpad_total s1 dpad DIRECTION_DOWN (by decide) h1
  obtain ⟨r3, s3, e3, h3, -⟩ := updateDpad_total s2 dpad DIRECTION_LEFT (by decide) h2
  obtain ⟨r4, s4, e4, h4, hr⟩ := updateDpad_total s3 dpad DIRECTION_RIGHT (by decide) h3
  exact ⟨r4, s4, by simp [filterToFourWayMode, e1, e2, e3, e4], h4, hr⟩

theorem filterCalls_total (masks : List Nat) :
    ∀ s : FourWayState, DIRECTION_NONE ∉ s.dpadList →
      ∃ outs sF, filterCalls s masks = some (outs, sF)
        ∧ outs.length = masks.length ∧ ∀ r ∈ outs, IsCardinalOrZero r := by
  induction masks with
  | nil =>
    intro s _
    exact ⟨[], s, rfl, rfl, by simp⟩
  | cons dpad rest ih =>
    intro s hs
    obtain ⟨r, s1, e1, h1, hr⟩ := filterToFourWayMode_total s dpad hs
    obtain ⟨outs, sF, e2, hlen, hall⟩ := ih s1 h1
    refine ⟨r :: outs, sF, by simp [filterCalls, e1, e2], by simp [hlen], ?_⟩
    intro x hx
    rcases List.mem_cons.mp hx with h | h
    · exact h ▸ hr
    · exact hall x h

/-! ## Properties of the specification -/

/-- C1. Bypass is the identity and has no effect on state: for every mask, every
tracker state and every clock value, `runSOCDCleaner` in Bypass mode returns
exactly the input mask (all bits, conflicting pairs included) and both axis
trackers are after the call what they were before it. -/
theorem bypass_identity (m currentTime : Nat) (s : SOCDState) :
    runSOCDCleaner SOCD_MODE_BYPASS m currentTime s = (m, s) := by
  simp [runSOCDCleaner]

/-- C2. Mutual exclusion: for every mode other than Bypass, every input mask,
every tracker state (reachable or not) and every clock value, the returned mask
never has both the Up and the Down bit set and never has both the Left and the
Right bit set. -/
theorem mutual_exclusion (mode : SOCDMode) (dpad currentTime : Nat) (s : SOCDState)
    (hm : mode ≠ SOCD_MODE_BYPASS) :
    ¬ ((runSOCDCleaner mode dpad currentTime s).1 &&& GAMEPAD_MASK_UP ≠ 0
        ∧ (runSOCDCleaner mode dpad currentTime s).1 &&& GAMEPAD_MASK_DOWN ≠ 0)
    ∧ ¬ ((runSOCDCleaner mode dpad currentTime s).1 &&& GAMEPAD_MASK_LEFT ≠ 0
        ∧ (runSOCDCleaner mode dpad currentTime s).1 &&& GAMEPAD_MASK_RIGHT ≠ 0) := by
  rw [runSOCDCleaner_fst mode dpad currentTime s hm]
  rcases cleanUpDown_fst_le mode dpad currentTime s.upDownTracker with h | h | h <;>
    rcases cleanLeftRight_fst_cases mode dpad currentTime s.leftRightTracker with k | k | k <;>
    rw [h, k] <;> decide

/-- Mutual exclusion at a call with all four directions pressed, outside the
window, in second-input mode with Up and Left remembered. -/
theorem mutual_exclusion_witness :
    ¬ ((runSOCDCleaner SOCD_MODE_SECOND_INPUT_PRIORITY 15 50
          { upDownTracker := { lastInputTime := 0, lastDirection := DIRECTION_UP },
            leftRightTracker := { lastInputTime := 0, lastDirection := DIRECTION_LEFT } }).1
          &&& GAMEPAD_MASK_UP ≠ 0
        ∧ (runSOCDCleaner SOCD_MODE_SECOND_INPUT_PRIORITY 15 50
          { upDownTracker := { lastInputTime := 0, lastDirection := DIRECTION_UP },
            leftRightTracker := { lastInputTime := 0, lastDirection := DIRECTION_LEFT } }).1
          &&& GAMEPAD_MASK_DOWN ≠ 0)
    ∧ ¬ ((runSOCDCleaner SOCD_MODE_SECOND_INPUT_PRIORITY 15 50
          { upDownTracker := { lastInputTime := 0, lastDirection := DIRECTION_UP },
            leftRightTracker := { lastInputTime := 0, lastDirection := DIRECTION_LEFT } }).1
          &&& GAMEPAD_MASK_LEFT ≠ 0
        ∧ (runSOCDCleaner SOCD_MODE_SECOND_INPUT_PRIORITY 15 50
          { upDownTracker := { lastInputTime := 0, lastDirection := DIRECTION_UP },
            leftRightTracker := { lastInputTime := 0, lastDirection := DIRECTION_LEFT } }).1
          &&& GAMEPAD_MASK_RIGHT ≠ 0) :=
  mutual_exclusion SOCD_MODE_SECOND_INPUT_PRIORITY 15 50
    { upDownTracker := { lastInputTime := 0, lastDirection := DIRECTION_UP },
      leftRightTracker := { lastInputTime := 0, lastDirection := DIRECTION_LEFT } }
    (by decide)

/-- C3. Four-way single-bit output: every finite sequence of
`filterToFourWayMode` calls from the initial state (no direction held, empty
history), whatever the input mask of each call, runs to completion with one
result per call, and each returned mask is `0` or exactly one of the Up, Down,
Left, Right masks; the masks are the distinct single bits of `dpadMasks`. -/
theorem four_way_single_bit (masks : List Nat) :
    ∃ outs sF, filterCalls FourWayState.init masks = some (outs, sF)
      ∧ outs.length = masks.length
      ∧ ∀ r ∈ outs, r = 0 ∨ r = GAMEPAD_MASK_UP ∨ r = GAMEPAD_MASK_DOWN
          ∨ r = GAMEPAD_MASK_LEFT ∨ r = GAMEPAD_MASK_RIGHT :=
  filterCalls_total masks FourWayState.init (by simp [FourWayState.init])

/-- C4. Debounce window: for every mode other than Bypass and each axis, when
both directions of the axis are set in the input: if the 32-bit difference
`currentTime - lastInputTime` of the axis tracker is at most 10, neither bit of
the axis is set in the output and the tracker's `lastDirection` becomes none,
whatever the mode and the remembered direction; if the difference is greater
than 10 (and the remembered direction is none or one of the axis), the axis
output is the policy-determined winner of the spec. -/
theorem debounce_window (mode : SOCDMode) (dpad currentTime : Nat) (s : SOCDState)
    (axis : Axis) (hm : mode ≠ SOCD_MODE_BYPASS)
    (hboth : dpad &&& axis.mask = axis.mask) :
    (sub32 currentTime (s.tracker axis).lastInputTime ≤ 10 →
      (runSOCDCleaner mode dpad currentTime s).1 &&& axis.mask = 0
        ∧ ((runSOCDCleaner mode dpad currentTime s).2.tracker axis).lastDirection
            = DIRECTION_NONE)
    ∧ (10 < sub32 currentTime (s.tracker axis).lastInputTime →
        ((s.tracker axis).lastDirection = DIRECTION_NONE
          ∨ axis.has (s.tracker axis).lastDirection = true) →
        (runSOCDCleaner mode dpad currentTime s).1 &&& axis.mask
          = dirMask (policyWinner mode axis (s.tracker axis).lastDirection)) := by
  rw [runSOCDCleaner_axis_bits mode dpad currentTime s hm axis,
    runSOCDCleaner_axis_tracker mode dpad currentTime s hm axis]
  cases axis
  · simp only [SOCDState.tracker, cleanUpDown_both mode dpad currentTime 0 _ hboth]
    constructor
    · intro hw
      simp only [if_pos hw, and_self]
    · intro hw hl
      rw [if_neg (not_le.mpr hw)]
      cases hd : s.upDownTracker.lastDirection <;> cases mode <;>
        simp_all [policyWinner, dirMask, opposite, Axis.has, GAMEPAD_MASK_UP, GAMEPAD_MASK_DOWN]
  · simp only [SOCDState.tracker, cleanLeftRight_both mode dpad currentTime 0 _ hboth]
    constructor
    · intro hw
      simp only [if_pos hw, and_true]
      rfl
    · intro hw hl
      rw [if_neg (not_le.mpr hw)]
      cases hd : s.leftRightTracker.lastDirection <;> cases mode <;>
        simp_all [policyWinner, dirMask, opposite, Axis.has, GAMEPAD_MASK_LEFT,
          GAMEPAD_MASK_RIGHT]

/-- The spec's debounce scenario: Up alone at 0 and then Up+Down at 5 gives no
vertical bit and forgets the direction; Up+Down at 20 instead gives Up under
up-priority and first-input priority and Down under second-input priority. -/
theorem debounce_window_witness :
    ((runSOCDCleaner SOCD_MODE_FIRST_INPUT_PRIORITY 3 5
          (afterUpAlone SOCD_MODE_FIRST_INPUT_PRIORITY)).1 &&& Axis.Vertical.mask = 0
      ∧ ((runSOCDCleaner SOCD_MODE_FIRST_INPUT_PRIORITY 3 5
          (afterUpAlone SOCD_MODE_FIRST_INPUT_PRIORITY)).2.tracker Axis.Vertical).lastDirection
          = DIRECTION_NONE)
    ∧ (runSOCDCleaner SOCD_MODE_UP_PRIORITY 3 20
          (afterUpAlone SOCD_MODE_UP_PRIORITY)).1 &&& Axis.Vertical.mask = GAMEPAD_MASK_UP
    ∧ (runSOCDCleaner SOCD_MODE_FIRST_INPUT_PRIORITY 3 20
          (afterUpAlone SOCD_MODE_FIRST_INPUT_PRIORITY)).1 &&& Axis.Vertical.mask
        = GAMEPAD_MASK_UP
    ∧ (runSOCDCleaner SOCD_MODE_SECOND_INPUT_PRIORITY 3 20
          (afterUpAlone SOCD_MODE_SECOND_INPUT_PRIORITY)).1 &&& Axis.Vertical.mask
        = GAMEPAD_MASK_DOWN :=
  ⟨(debounce_window SOCD_MODE_FIRST_INPUT_PRIORITY 3 5
      (afterUpAlone SOCD_MODE_FIRST_INPUT_PRIORITY) Axis.Vertical (by decide) (by decide)).1
      (by decide),
    (debounce_window SOCD_MODE_UP_PRIORITY 3 20
      (afterUpAlone SOCD_MODE_UP_PRIORITY) Axis.Vertical (by decide) (by decide)).2
      (by decide) (by decide),
    (debounce_window SOCD_MODE_FIRST_INPUT_PRIORITY 3 20
      (afterUpAlone SOCD_MODE_FIRST_INPUT_PRIORITY) Axis.Vertical (by decide) (by decide)).2
      (by decide) (by decide),
    (debounce_window SOCD_MODE_SECOND_INPUT_PRIORITY 3 20
      (afterUpAlone SOCD_MODE_SECOND_INPUT_PRIORITY) Axis.Vertical (by decide) (by decide)).2
      (by decide) (by decide)⟩

/-- C5. FirstInputPriority persistence: under first-input priority, for each
axis whose tracker remembers a direction `D` of that axis, a call with both
directions of the axis set at a clock value more than 10 past `lastInputTime`
outputs exactly `D` on that axis and leaves the axis tracker unchanged; hence
in every sequence of such calls (both still set, each outside the window) every
call outputs `D` again and the tracker stays the same. -/
theorem first_input_persistence (s : SOCDState) (axis : Axis) (D : DpadDirection)
    (hD : axis.has D = true) (hlast : (s.tracker axis).lastDirection = D) :
    (∀ dpad currentTime : Nat, dpad &&& axis.mask = axis.mask →
      10 < sub32 currentTime (s.tracker axis).lastInputTime →
      (runSOCDCleaner SOCD_MODE_FIRST_INPUT_PRIORITY dpad currentTime s).1 &&& axis.mask
          = dirMask D
        ∧ (runSOCDCleaner SOCD_MODE_FIRST_INPUT_PRIORITY dpad currentTime s).2.tracker axis
          = s.tracker axis)
    ∧ (∀ calls : List SOCDCall,
        (∀ c ∈ calls, c.mode = SOCD_MODE_FIRST_INPUT_PRIORITY
          ∧ c.dpad &&& axis.mask = axis.mask
          ∧ 10 < sub32 c.currentTime (s.tracker axis).lastInputTime) →
        (socdCalls s calls).1.length = calls.length
          ∧ (∀ r ∈ (socdCalls s calls).1, r &&& axis.mask = dirMask D)
          ∧ (socdCalls s calls).2.tracker axis = s.tracker axis) := by
  constructor
  · intro dpad t hboth hout
    simpa using priority_step SOCD_MODE_FIRST_INPUT_PRIORITY dpad t s axis D hD hlast hboth hout
      (Or.inl rfl)
  · intro calls hcalls
    refine socdCalls_axis_constant axis (s.tracker axis) (dirMask D)
      (fun c => c.mode = SOCD_MODE_FIRST_INPUT_PRIORITY ∧ c.dpad &&& axis.mask = axis.mask
          ∧ 10 < sub32 c.currentTime (s.tracker axis).lastInputTime) ?_ calls s hcalls rfl
    intro c s1 hc hs1
    obtain ⟨hmode, hboth, hout⟩ := hc
    have h := priority_step c.mode c.dpad c.currentTime s1 axis D hD (by rw [hs1]; exact hlast)
      hboth (by rw [hs1]; exact hout) (Or.inl hmode)
    rw [hs1] at h
    simpa [hmode] using h

/-- The spec's persistence scenario: Up alone at 0, then Up+Down at 50 yields
Up with the vertical tracker unchanged, and a following Up+Down call at 60
yields Up again. -/
theorem first_input_persistence_witness :
    ((runSOCDCleaner SOCD_MODE_FIRST_INPUT_PRIORITY 3 50
          (afterUpAlone SOCD_MODE_FIRST_INPUT_PRIORITY)).1 &&& Axis.Vertical.mask
        = GAMEPAD_MASK_UP
      ∧ (runSOCDCleaner SOCD_MODE_FIRST_INPUT_PRIORITY 3 50
          (afterUpAlone SOCD_MODE_FIRST_INPUT_PRIORITY)).2.tracker Axis.Vertical
        = (afterUpAlone SOCD_MODE_FIRST_INPUT_PRIORITY).tracker Axis.Vertical)
    ∧ ((runSOCDCleaner SOCD_MODE_FIRST_INPUT_PRIORITY 3 60
          (runSOCDCleaner SOCD_MODE_FIRST_INPUT_PRIORITY 3 50
            (afterUpAlone SOCD_MODE_FIRST_INPUT_PRIORITY)).2).1 &&& Axis.Vertical.mask
        = GAMEPAD_MASK_UP
      ∧ (runSOCDCleaner SOCD_MODE_FIRST_INPUT_PRIORITY 3 60
          (runSOCDCleaner SOCD_MODE_FIRST_INPUT_PRIORITY 3 50
            (afterUpAlone SOCD_MODE_FIRST_INPUT_PRIORITY)).2).2.tracker Axis.Vertical
        = (runSOCDCleaner SOCD_MODE_FIRST_INPUT_PRIORITY 3 50
            (afterUpAlone SOCD_MODE_FIRST_INPUT_PRIORITY)).2.tracker Axis.Vertical) :=
  ⟨(first_input_persistence (afterUpAlone SOCD_MODE_FIRST_INPUT_PRIORITY) Axis.Vertical
      DIRECTION_UP (by decide) (by decide)).1 3 50 (by decide) (by decide),
    (first_input_persistence
      (runSOCDCleaner SOCD_MODE_FIRST_INPUT_PRIORITY 3 50
        (afterUpAlone SOCD_MODE_FIRST_INPUT_PRIORITY)).2 Axis.Vertical
      DIRECTION_UP (by decide) (by decide)).1 3 60 (by decide) (by decide)⟩

/-- C6. SecondInputPriority inversion: under second-input priority, for each
axis whose tracker remembers a direction `D` of that axis, a call with both
directions of the axis set at a clock value more than 10 past `lastInputTime`
outputs exactly the direction opposite to `D` on that axis and leaves the
tracker unchanged (`lastDirection` stays `D`); hence every sequence of such
calls keeps yielding the opposite of `D`. -/
theorem second_input_inversion (s : SOCDState) (axis : Axis) (D : DpadDirection)
    (hD : axis.has D = true) (hlast : (s.tracker axis).lastDirection = D) :
    (∀ dpad currentTime : Nat, dpad &&& axis.mask = axis.mask →
      10 < sub32 currentTime (s.tracker axis).lastInputTime →
      (runSOCDCleaner SOCD_MODE_SECOND_INPUT_PRIORITY dpad currentTime s).1 &&& axis.mask
          = dirMask (opposite D)
        ∧ (runSOCDCleaner SOCD_MODE_SECOND_INPUT_PRIORITY dpad currentTime s).2.tracker axis
          = s.tracker axis)
    ∧ (∀ calls : List SOCDCall,
        (∀ c ∈ calls, c.mode = SOCD_MODE_SECOND_INPUT_PRIORITY
          ∧ c.dpad &&& axis.mask = axis.mask
          ∧ 10 < sub32 c.currentTime (s.tracker axis).lastInputTime) →
        (socdCalls s calls).1.length = calls.length
          ∧ (∀ r ∈ (socdCalls s calls).1, r &&& axis.mask = dirMask (opposite D))
          ∧ (socdCalls s calls).2.tracker axis = s.tracker axis) := by
  constructor
  · intro dpad t hboth hout
    simpa using priority_step SOCD_MODE_SECOND_INPUT_PRIORITY dpad t s axis D hD hlast hboth hout
      (Or.inr rfl)
  · intro calls hcalls
    refine socdCalls_axis_constant axis (s.tracker axis) (dirMask (opposite D))
      (fun c => c.mode = SOCD_MODE_SECOND_INPUT_PRIORITY ∧ c.dpad &&& axis.mask = axis.mask
          ∧ 10 < sub32 c.currentTime (s.tracker axis).lastInputTime) ?_ calls s hcalls rfl
    intro c s1 hc hs1
    obtain ⟨hmode, hboth, hout⟩ := hc
    have h := priority_step c.mode c.dpad c.currentTime s1 axis D hD (by rw [hs1]; exact hlast)
      hboth (by rw [hs1]; exact hout) (Or.inr hmode)
    rw [hs1] at h
    simpa [hmode] using h

/-- The spec's inversion scenario: Up alone at 0, then Up+Down at 50 yields
Down, and the vertical tracker still remembers Up. -/
theorem second_input_inversion_witness :
    (runSOCDCleaner SOCD_MODE_SECOND_INPUT_PRIORITY 3 50
          (afterUpAlone SOCD_MODE_SECOND_INPUT_PRIORITY)).1 &&& Axis.Vertical.mask
        = GAMEPAD_MASK_DOWN
      ∧ (runSOCDCleaner SOCD_MODE_SECOND_INPUT_PRIORITY 3 50
          (afterUpAlone SOCD_MODE_SECOND_INPUT_PRIORITY)).2.tracker Axis.Vertical
        = (afterUpAlone SOCD_MODE_SECOND_INPUT_PRIORITY).tracker Axis.Vertical :=
  (second_input_inversion (afterUpAlone SOCD_MODE_SECOND_INPUT_PRIORITY) Axis.Vertical
    DIRECTION_UP (by decide) (by decide)).1 3 50 (by decide) (by decide)

/-- C7. UpPriority on the vertical axis: under up-priority, whenever both Up
and Down are set in the input and the clock is more than 10 past the vertical
tracker's `lastInputTime`, the output has Up set and Down clear, the vertical
tracker's `lastDirection` becomes Up and its `lastInputTime` is unchanged, for
every previously remembered direction. -/
theorem up_priority_vertical (dpad currentTime : Nat) (s : SOCDState)
    (hboth : dpad &&& (GAMEPAD_MASK_UP ||| GAMEPAD_MASK_DOWN)
      = GAMEPAD_MASK_UP ||| GAMEPAD_MASK_DOWN)
    (hout : 10 < sub32 currentTime s.upDownTracker.lastInputTime) :
    (runSOCDCleaner SOCD_MODE_UP_PRIORITY dpad currentTime s).1 &&& GAMEPAD_MASK_UP
        = GAMEPAD_MASK_UP
      ∧ (runSOCDCleaner SOCD_MODE_UP_PRIORITY dpad currentTime s).1 &&& GAMEPAD_MASK_DOWN = 0
      ∧ (runSOCDCleaner SOCD_MODE_UP_PRIORITY dpad currentTime s).2.upDownTracker.lastDirection
        = DIRECTION_UP
      ∧ (runSOCDCleaner SOCD_MODE_UP_PRIORITY dpad currentTime s).2.upDownTracker.lastInputTime
        = s.upDownTracker.lastInputTime := by
  have hm : SOCD_MODE_UP_PRIORITY ≠ SOCD_MODE_BYPASS := by decide
  have hv : cleanUpDown SOCD_MODE_UP_PRIORITY dpad currentTime 0 s.upDownTracker
      = (GAMEPAD_MASK_UP, { s.upDownTracker with lastDirection := DIRECTION_UP }) := by
    rw [cleanUpDown_both _ dpad currentTime 0 _ hboth, if_neg (not_le.mpr hout)]
    simp
  rw [runSOCDCleaner_upDown _ dpad currentTime s hm, runSOCDCleaner_fst _ dpad currentTime s hm,
    hv]
  refine ⟨?_, ?_, rfl, rfl⟩ <;>
    rcases cleanLeftRight_fst_cases SOCD_MODE_UP_PRIORITY dpad currentTime s.leftRightTracker
      with k | k | k <;> rw [k] <;> simp only [GAMEPAD_MASK_UP, GAMEPAD_MASK_DOWN] <;> decide

/-- Up-priority with Down remembered: Up+Down at 50 after a tracker that holds
Down since 0 yields Up and remembers Up. -/
theorem up_priority_vertical_witness :
    (runSOCDCleaner SOCD_MODE_UP_PRIORITY 3 50
        { upDownTracker := { lastInputTime := 0, lastDirection := DIRECTION_DOWN },
          leftRightTracker := {} }).1 &&& GAMEPAD_MASK_UP = GAMEPAD_MASK_UP
      ∧ (runSOCDCleaner SOCD_MODE_UP_PRIORITY 3 50
        { upDownTracker := { lastInputTime := 0, lastDirection := DIRECTION_DOWN },
          leftRightTracker := {} }).1 &&& GAMEPAD_MASK_DOWN = 0
      ∧ (runSOCDCleaner SOCD_MODE_UP_PRIORITY 3 50
        { upDownTracker := { lastInputTime := 0, lastDirection := DIRECTION_DOWN },
          leftRightTracker := {} }).2.upDownTracker.lastDirection = DIRECTION_UP
      ∧ (runSOCDCleaner SOCD_MODE_UP_PRIORITY 3 50
        { upDownTracker := { lastInputTime := 0, lastDirection := DIRECTION_DOWN },
          leftRightTracker := {} }).2.upDownTracker.lastInputTime = 0 :=
  up_priority_vertical 3 50
    { upDownTracker := { lastInputTime := 0, lastDirection := DIRECTION_DOWN },
      leftRightTracker := {} } (by decide) (by decide)

/-- C8. Recency tie-break in the four-way filter: for any two distinct cardinal
directions `a` and `b`, from the initial filter state the three calls with the
masks of `a`, of `a` and `b` together, and of `a` return the masks of `a`, `b`,
`a` in that order: the newly added direction wins while both are held, and its
release reveals the earlier, still held one. -/
theorem recency_tie_break (a b : DpadDirection) (ha : a ≠ DIRECTION_NONE)
    (hb : b ≠ DIRECTION_NONE) (hab : a ≠ b) :
    ∃ ma mb, getMaskFromDirection a = some ma ∧ getMaskFromDirection b = some mb
      ∧ (filterCalls FourWayState.init [ma, ma ||| mb, ma]).map Prod.fst
          = some [ma, mb, ma] := by
  cases a <;> cases b <;> first
    | exact absurd rfl ha
    | exact absurd rfl hb
    | exact absurd rfl hab
    | exact ⟨_, _, rfl, rfl, by decide⟩

/-- Left, then Left+Right, then Left again returns Left, Right, Left. -/
theorem recency_tie_break_witness :
    (filterCalls FourWayState.init
        [GAMEPAD_MASK_LEFT, GAMEPAD_MASK_LEFT ||| GAMEPAD_MASK_RIGHT, GAMEPAD_MASK_LEFT]).map
      Prod.fst = some [GAMEPAD_MASK_LEFT, GAMEPAD_MASK_RIGHT, GAMEPAD_MASK_LEFT] := by
  obtain ⟨ma, mb, h1, h2, h3⟩ :=
    recency_tie_break DIRECTION_LEFT DIRECTION_RIGHT (by decide) (by decide) (by decide)
  have e1 : GAMEPAD_MASK_LEFT = ma := Option.some.inj h1
  have e2 : GAMEPAD_MASK_RIGHT = mb := Option.some.inj h2
  rw [e1, e2]
  exact h3

/-- C9 as stated fails: in up-priority mode the input `0x11` (Up and the
button bit 4) returns `0x01`, whose bits 4 to 7 differ from the input's. -/
theorem button_bits_dropped :
    (runSOCDCleaner SOCD_MODE_UP_PRIORITY 17 0 SOCDState.init).1 = 1
      ∧ (runSOCDCleaner SOCD_MODE_UP_PRIORITY 17 0 SOCDState.init).1 &&& buttonBits
        ≠ 17 &&& buttonBits := by
  decide

/-- C9 (amended). Bits 4 to 7 of the result: under Bypass the result is the
input, all eight bits; under every other mode the result is built from `0`, so
its bits 4 to 7 are all clear whatever the input, and they equal the input's
bits 4 to 7 exactly for the inputs that have none of them set. -/
theorem button_bits_cleared (mode : SOCDMode) (dpad currentTime : Nat) (s : SOCDState) :
    (mode = SOCD_MODE_BYPASS → (runSOCDCleaner mode dpad currentTime s).1 = dpad)
    ∧ (mode ≠ SOCD_MODE_BYPASS →
        (runSOCDCleaner mode dpad currentTime s).1 &&& buttonBits = 0
          ∧ ((runSOCDCleaner mode dpad currentTime s).1 &&& buttonBits = dpad &&& buttonBits
              ↔ dpad &&& buttonBits = 0)) := by
  constructor
  · intro hm
    simp [runSOCDCleaner, hm]
  · intro hm
    have h0 : (runSOCDCleaner mode dpad currentTime s).1 &&& buttonBits = 0 := by
      rw [runSOCDCleaner_fst mode dpad currentTime s hm]
      rcases cleanUpDown_fst_le mode dpad currentTime s.upDownTracker with h | h | h <;>
        rcases cleanLeftRight_fst_cases mode dpad currentTime s.leftRightTracker
          with k | k | k <;>
        rw [h, k] <;> decide
    refine ⟨h0, ?_⟩
    rw [h0]
    exact eq_comm

/-- In up-priority mode the input `0x11` gives a result without bits 4 to 7,
which therefore differ from the input's. -/
theorem button_bits_cleared_witness :
    (runSOCDCleaner SOCD_MODE_UP_PRIORITY 17 0 SOCDState.init).1 &&& buttonBits = 0
      ∧ ((runSOCDCleaner SOCD_MODE_UP_PRIORITY 17 0 SOCDState.init).1 &&& buttonBits
            = 17 &&& buttonBits
          ↔ 17 &&& buttonBits = 0) :=
  (button_bits_cleared SOCD_MODE_UP_PRIORITY 17 0 SOCDState.init).2 (by decide)

/-- C10. Conflict-free branches of the cleaner: for every mode other than
Bypass, every tracker state and clock value, and each axis on which the input
has at most one direction set, the two output bits of the axis equal the two
input bits of the axis; if exactly one direction `D` is set the axis tracker
afterwards has `lastDirection = D` and `lastInputTime = currentTime`; if neither
is set it has `lastDirection` none and `lastInputTime` unchanged. -/
theorem conflict_free_branches (mode : SOCDMode) (dpad currentTime : Nat) (s : SOCDState)
    (axis : Axis) (hm : mode ≠ SOCD_MODE_BYPASS)
    (hfree : dpad &&& axis.mask ≠ axis.mask) :
    (runSOCDCleaner mode dpad currentTime s).1 &&& axis.mask = dpad &&& axis.mask
      ∧ (∀ D : DpadDirection, axis.has D = true → dpad &&& axis.mask = dirMask D →
          (runSOCDCleaner mode dpad currentTime s).2.tracker axis
            = { lastInputTime := currentTime, lastDirection := D })
      ∧ (dpad &&& axis.mask = 0 →
          ((runSOCDCleaner mode dpad currentTime s).2.tracker axis).lastDirection
              = DIRECTION_NONE
            ∧ ((runSOCDCleaner mode dpad currentTime s).2.tracker axis).lastInputTime
              = (s.tracker axis).lastInputTime) := by
  rw [runSOCDCleaner_axis_bits mode dpad currentTime s hm axis,
    runSOCDCleaner_axis_tracker mode dpad currentTime s hm axis]
  cases axis
  · simp only [cleanUpDown_free mode dpad currentTime 0 _ hfree, SOCDState.tracker]
    simp only [Axis.mask, GAMEPAD_MASK_UP, GAMEPAD_MASK_DOWN, Nat.reduceOr] at hfree ⊢
    rcases and_three_cases dpad with h | h | h | h
    · refine ⟨by simp [h], ?_, by simp [h]⟩
      intro D hD hd
      cases D <;> simp_all [Axis.has, dirMask, GAMEPAD_MASK_UP, GAMEPAD_MASK_DOWN]
    · refine ⟨by simp [h], ?_, by simp [h]⟩
      intro D hD hd
      cases D <;> simp_all [Axis.has, dirMask, GAMEPAD_MASK_UP, GAMEPAD_MASK_DOWN]
    · refine ⟨by simp [h], ?_, by simp [h]⟩
      intro D hD hd
      cases D <;> simp_all [Axis.has, dirMask, GAMEPAD_MASK_UP, GAMEPAD_MASK_DOWN]
    · exact absurd h hfree
  · simp only [cleanLeftRight_free mode dpad currentTime 0 _ hfree, SOCDState.tracker]
    simp only [Axis.mask, GAMEPAD_MASK_LEFT, GAMEPAD_MASK_RIGHT, Nat.reduceOr] at hfree ⊢
    rcases and_twelve_cases dpad with h | h | h | h
    · refine ⟨by simp [h], ?_, by simp [h]⟩
      intro D hD hd
      cases D <;> simp_all [Axis.has, dirMask, GAMEPAD_MASK_LEFT, GAMEPAD_MASK_RIGHT]
    · refine ⟨by simp [h], ?_, by simp [h]⟩
      intro D hD hd
      cases D <;> simp_all [Axis.has, dirMask, GAMEPAD_MASK_LEFT, GAMEPAD_MASK_RIGHT]
    · refine ⟨by simp [h], ?_, by simp [h]⟩
      intro D hD hd
      cases D <;> simp_all [Axis.has, dirMask, GAMEPAD_MASK_LEFT, GAMEPAD_MASK_RIGHT]
    · exact absurd h hfree

/-- Down alone at clock value 7 in neutral mode, from a tracker that remembers
Up since 3: the output is Down and the tracker holds Down since 7. -/
theorem conflict_free_branches_witness :
    (runSOCDCleaner SOCD_MODE_NEUTRAL 2 7
        { upDownTracker := { lastInputTime := 3, lastDirection := DIRECTION_UP },
          leftRightTracker := {} }).1 &&& Axis.Vertical.mask = 2 &&& Axis.Vertical.mask
      ∧ (runSOCDCleaner SOCD_MODE_NEUTRAL 2 7
        { upDownTracker := { lastInputTime := 3, lastDirection := DIRECTION_UP },
          leftRightTracker := {} }).2.tracker Axis.Vertical
        = { lastInputTime := 7, lastDirection := DIRECTION_DOWN } :=
  ⟨(conflict_free_branches SOCD_MODE_NEUTRAL 2 7
      { upDownTracker := { lastInputTime := 3, lastDirection := DIRECTION_UP },
        leftRightTracker := {} } Axis.Vertical (by decide) (by decide)).1,
    (conflict_free_branches SOCD_MODE_NEUTRAL 2 7
      { upDownTracker := { lastInputTime := 3, lastDirection := DIRECTION_UP },
        leftRightTracker := {} } Axis.Vertical (by decide) (by decide)).2.1
      DIRECTION_DOWN (by decide) (by decide)⟩

/-! ## Auxiliary lemmas: what an axis step reads and writes -/

theorem cleanUpDown_congr (mode : SOCDMode) (dpad1 dpad2 t nd : Nat) (tr : NeutralTracker)
    (h : dpad1 &&& (GAMEPAD_MASK_UP ||| GAMEPAD_MASK_DOWN)
      = dpad2 &&& (GAMEPAD_MASK_UP ||| GAMEPAD_MASK_DOWN)) :
    cleanUpDown mode dpad1 t nd tr = cleanUpDown mode dpad2 t nd tr := by
  unfold cleanUpDown
  rw [h]

theorem cleanLeftRight_congr (mode : SOCDMode) (dpad1 dpad2 t nd : Nat) (tr : NeutralTracker)
    (h : dpad1 &&& (GAMEPAD_MASK_LEFT ||| GAMEPAD_MASK_RIGHT)
      = dpad2 &&& (GAMEPAD_MASK_LEFT ||| GAMEPAD_MASK_RIGHT)) :
    cleanLeftRight mode dpad1 t nd tr = cleanLeftRight mode dpad2 t nd tr := by
  unfold cleanLeftRight
  rw [h]

/-- The vertical step writes only bits that the input has. -/
theorem cleanUpDown_subset (mode : SOCDMode) (dpad t : Nat) (tr : NeutralTracker) :
    (cleanUpDown mode dpad t 0 tr).1 &&& (dpad &&& 3) = (cleanUpDown mode dpad t 0 tr).1 := by
  by_cases hb : dpad &&& (GAMEPAD_MASK_UP ||| GAMEPAD_MASK_DOWN)
      = GAMEPAD_MASK_UP ||| GAMEPAD_MASK_DOWN
  · have h3 : dpad &&& 3 = 3 := hb
    rcases cleanUpDown_fst_le mode dpad t tr with h | h | h <;> rw [h, h3] <;> decide
  · rw [cleanUpDown_free mode dpad t 0 _ hb]
    simp only [GAMEPAD_MASK_UP, GAMEPAD_MASK_DOWN, Nat.reduceOr]
    rcases and_three_cases dpad with h | h | h | h <;> simp [h]

/-- The horizontal step writes only bits that the input has. -/
theorem cleanLeftRight_subset (mode : SOCDMode) (dpad t : Nat) (tr : NeutralTracker) :
    (cleanLeftRight mode dpad t 0 tr).1 &&& (dpad &&& 12)
      = (cleanLeftRight mode dpad t 0 tr).1 := by
  by_cases hb : dpad &&& (GAMEPAD_MASK_LEFT ||| GAMEPAD_MASK_RIGHT)
      = GAMEPAD_MASK_LEFT ||| GAMEPAD_MASK_RIGHT
  · have h3 : dpad &&& 12 = 12 := hb
    rcases cleanLeftRight_fst_cases mode dpad t tr with h | h | h <;> rw [h, h3] <;> decide
  · rw [cleanLeftRight_free mode dpad t 0 _ hb]
    simp only [GAMEPAD_MASK_LEFT, GAMEPAD_MASK_RIGHT, Nat.reduceOr]
    rcases and_twelve_cases dpad with h | h | h | h <;> simp [h]

/-- A call in which exactly one direction of the axis is set stores the clock
value and the direction, whatever the tracker held. -/
theorem single_direction_tracker (mode : SOCDMode) (dpad t : Nat) (s : SOCDState)
    (axis : Axis) (D : DpadDirection) (hm : mode ≠ SOCD_MODE_BYPASS)
    (hD : axis.has D = true) (hone : dpad &&& axis.mask = dirMask D) :
    (runSOCDCleaner mode dpad t s).2.tracker axis
      = { lastInputTime := t, lastDirection := D } := by
  rw [runSOCDCleaner_axis_tracker mode dpad t s hm axis]
  cases axis
  · have hfree : dpad &&& (GAMEPAD_MASK_UP ||| GAMEPAD_MASK_DOWN)
        ≠ GAMEPAD_MASK_UP ||| GAMEPAD_MASK_DOWN := by
      intro hb
      rw [show dpad &&& Axis.Vertical.mask = dpad &&& (GAMEPAD_MASK_UP ||| GAMEPAD_MASK_DOWN)
        from rfl, hb] at hone
      cases D <;> revert hone <;> simp [Axis.has] at hD <;> decide
    simp only [cleanUpDown_free mode dpad t 0 _ hfree]
    rw [show dpad &&& (GAMEPAD_MASK_UP ||| GAMEPAD_MASK_DOWN) = dirMask D from hone]
    cases D <;> simp [Axis.has] at hD <;> simp [dirMask, GAMEPAD_MASK_UP, GAMEPAD_MASK_DOWN]
  · have hfree : dpad &&& (GAMEPAD_MASK_LEFT ||| GAMEPAD_MASK_RIGHT)
        ≠ GAMEPAD_MASK_LEFT ||| GAMEPAD_MASK_RIGHT := by
      intro hb
      rw [show dpad &&& Axis.Horizontal.mask
        = dpad &&& (GAMEPAD_MASK_LEFT ||| GAMEPAD_MASK_RIGHT) from rfl, hb] at hone
      cases D <;> revert hone <;> simp [Axis.has] at hD <;> decide
    simp only [cleanLeftRight_free mode dpad t 0 _ hfree]
    rw [show dpad &&& (GAMEPAD_MASK_LEFT ||| GAMEPAD_MASK_RIGHT) = dirMask D from hone]
    cases D <;> simp [Axis.has] at hD <;>
      simp [dirMask, GAMEPAD_MASK_LEFT, GAMEPAD_MASK_RIGHT]

/-- Inside the window a conflict on an axis gives no bit of the axis and
forgets the remembered direction. -/
theorem window_neutral (mode : SOCDMode) (dpad t : Nat) (s : SOCDState) (axis : Axis)
    (hm : mode ≠ SOCD_MODE_BYPASS) (hboth : dpad &&& axis.mask = axis.mask)
    (hin : sub32 t (s.tracker axis).lastInputTime ≤ 10) :
    (runSOCDCleaner mode dpad t s).1 &&& axis.mask = 0
      ∧ (runSOCDCleaner mode dpad t s).2.tracker axis
        = { lastInputTime := (s.tracker axis).lastInputTime, lastDirection := DIRECTION_NONE } := by
  rw [runSOCDCleaner_axis_bits mode dpad t s hm axis,
    runSOCDCleaner_axis_tracker mode dpad t s hm axis]
  cases axis
  · simp only [SOCDState.tracker] at hin ⊢
    simp only [cleanUpDown_both mode dpad t 0 _ hboth, if_pos hin, and_self]
  · simp only [SOCDState.tracker] at hin ⊢
    simp only [cleanLeftRight_both mode dpad t 0 _ hboth, if_pos hin, and_true]
    rfl

/-- Outside the window a conflict without an applicable winner gives no bit of
the axis and forgets the remembered direction. -/
theorem no_winner_step (mode : SOCDMode) (dpad t : Nat) (s : SOCDState) (axis : Axis)
    (hm : mode ≠ SOCD_MODE_BYPASS) (hboth : dpad &&& axis.mask = axis.mask)
    (hcase : ((mode = SOCD_MODE_FIRST_INPUT_PRIORITY ∨ mode = SOCD_MODE_SECOND_INPUT_PRIORITY)
          ∧ (s.tracker axis).lastDirection = DIRECTION_NONE)
        ∨ (axis = Axis.Horizontal ∧ mode = SOCD_MODE_UP_PRIORITY)
        ∨ (mode ≠ SOCD_MODE_UP_PRIORITY ∧ mode ≠ SOCD_MODE_FIRST_INPUT_PRIORITY
            ∧ mode ≠ SOCD_MODE_SECOND_INPUT_PRIORITY)) :
    (runSOCDCleaner mode dpad t s).1 &&& axis.mask = 0
      ∧ (runSOCDCleaner mode dpad t s).2.tracker axis
        = { lastInputTime := (s.tracker axis).lastInputTime, lastDirection := DIRECTION_NONE } := by
  by_cases hin : sub32 t (s.tracker axis).lastInputTime ≤ 10
  · exact window_neutral mode dpad t s axis hm hboth hin
  · rw [runSOCDCleaner_axis_bits mode dpad t s hm axis,
      runSOCDCleaner_axis_tracker mode dpad t s hm axis]
    cases axis
    · simp only [SOCDState.tracker] at hin hcase ⊢
      simp only [cleanUpDown_both mode dpad t 0 _ hboth, if_neg hin]
      cases mode <;> simp_all
    · simp only [SOCDState.tracker] at hin hcase ⊢
      simp only [cleanLeftRight_both mode dpad t 0 _ hboth, if_neg hin]
      cases mode <;> simp_all

/-- With no direction remembered, a call in first-input or second-input mode
that has both or neither direction of the axis set gives no bit of the axis and
leaves the tracker as it is. -/
theorem sticky_step (mode : SOCDMode) (dpad t : Nat) (s : SOCDState) (axis : Axis)
    (hmode : mode = SOCD_MODE_FIRST_INPUT_PRIORITY ∨ mode = SOCD_MODE_SECOND_INPUT_PRIORITY)
    (hnone : (s.tracker axis).lastDirection = DIRECTION_NONE)
    (hbits : dpad &&& axis.mask = axis.mask ∨ dpad &&& axis.mask = 0) :
    (runSOCDCleaner mode dpad t s).1 &&& axis.mask = 0
      ∧ (runSOCDCleaner mode dpad t s).2.tracker axis = s.tracker axis := by
  have hm : mode ≠ SOCD_MODE_BYPASS := by rcases hmode with h | h <;> rw [h] <;> decide
  have hT : s.tracker axis
      = { lastInputTime := (s.tracker axis).lastInputTime, lastDirection := DIRECTION_NONE } := by
    rw [← hnone]
  rcases hbits with hboth | hzero
  · have h := no_winner_step mode dpad t s axis hm hboth (Or.inl ⟨hmode, hnone⟩)
    exact ⟨h.1, by rw [h.2, ← hT]⟩
  · have hfree : dpad &&& axis.mask ≠ axis.mask := by
      rw [hzero]; cases axis <;> decide
    rw [runSOCDCleaner_axis_bits mode dpad t s hm axis,
      runSOCDCleaner_axis_tracker mode dpad t s hm axis]
    cases axis
    · simp only [SOCDState.tracker] at hT ⊢
      rw [cleanUpDown_free mode dpad t 0 _ hfree,
        show dpad &&& (GAMEPAD_MASK_UP ||| GAMEPAD_MASK_DOWN) = 0 from hzero]
      simp only [GAMEPAD_MASK_UP, GAMEPAD_MASK_DOWN]
      exact ⟨rfl, hT.symm⟩
    · simp only [SOCDState.tracker] at hT ⊢
      rw [cleanLeftRight_free mode dpad t 0 _ hfree,
        show dpad &&& (GAMEPAD_MASK_LEFT ||| GAMEPAD_MASK_RIGHT) = 0 from hzero]
      simp only [GAMEPAD_MASK_LEFT, GAMEPAD_MASK_RIGHT]
      exact ⟨rfl, hT.symm⟩

/-- Outside the window, first-input and second-input mode with a remembered
direction write a bit of the axis. -/
theorem remembered_conflict_nonzero (mode : SOCDMode) (dpad t : Nat) (s : SOCDState)
    (axis : Axis)
    (hmode : mode = SOCD_MODE_FIRST_INPUT_PRIORITY ∨ mode = SOCD_MODE_SECOND_INPUT_PRIORITY)
    (hboth : dpad &&& axis.mask = axis.mask)
    (hout : ¬ sub32 t (s.tracker axis).lastInputTime ≤ 10)
    (hrem : (s.tracker axis).lastDirection ≠ DIRECTION_NONE) :
    (runSOCDCleaner mode dpad t s).1 &&& axis.mask ≠ 0 := by
  have hm : mode ≠ SOCD_MODE_BYPASS := by rcases hmode with h | h <;> rw [h] <;> decide
  rw [runSOCDCleaner_axis_bits mode dpad t s hm axis]
  cases axis
  · simp only [SOCDState.tracker] at hout hrem ⊢
    simp only [cleanUpDown_both mode dpad t 0 _ hboth, if_neg hout]
    rcases hmode with h | h <;> subst h <;>
      simp only [GAMEPAD_MASK_UP, GAMEPAD_MASK_DOWN] <;> split_ifs <;> simp_all
  · simp only [SOCDState.tracker] at hout hrem ⊢
    simp only [cleanLeftRight_both mode dpad t 0 _ hboth, if_neg hout]
    rcases hmode with h | h <;> subst h <;>
      simp only [GAMEPAD_MASK_LEFT, GAMEPAD_MASK_RIGHT] <;> split_ifs <;> simp_all

/-- A conflict that came out neutral in first-input or second-input mode
leaves no direction remembered. -/
theorem neutral_conflict_forgets (mode : SOCDMode) (dpad t : Nat) (s : SOCDState)
    (axis : Axis)
    (hmode : mode = SOCD_MODE_FIRST_INPUT_PRIORITY ∨ mode = SOCD_MODE_SECOND_INPUT_PRIORITY)
    (hboth : dpad &&& axis.mask = axis.mask)
    (hneutral : (runSOCDCleaner mode dpad t s).1 &&& axis.mask = 0) :
    ((runSOCDCleaner mode dpad t s).2.tracker axis).lastDirection = DIRECTION_NONE := by
  have hm : mode ≠ SOCD_MODE_BYPASS := by rcases hmode with h | h <;> rw [h] <;> decide
  by_cases hin : sub32 t (s.tracker axis).lastInputTime ≤ 10
  · rw [(window_neutral mode dpad t s axis hm hboth hin).2]
  · by_cases hrem : (s.tracker axis).lastDirection = DIRECTION_NONE
    · rw [(no_winner_step mode dpad t s axis hm hboth (Or.inl ⟨hmode, hrem⟩)).2]
    · exact absurd hneutral
        (remembered_conflict_nonzero mode dpad t s axis hmode hboth hin hrem)

/-- Outside the window the output of an axis is the winner the policy names,
when the remembered direction is none or one of the axis. -/
theorem outside_window_policy (mode : SOCDMode) (dpad t : Nat) (s : SOCDState) (axis : Axis)
    (hm : mode ≠ SOCD_MODE_BYPASS) (hboth : dpad &&& axis.mask = axis.mask)
    (hout : 10 < sub32 t (s.tracker axis).lastInputTime)
    (hl : (s.tracker axis).lastDirection = DIRECTION_NONE
      ∨ axis.has (s.tracker axis).lastDirection = true) :
    (runSOCDCleaner mode dpad t s).1 &&& axis.mask
      = dirMask (policyWinner mode axis (s.tracker axis).lastDirection) := by
  rw [runSOCDCleaner_axis_bits mode dpad t s hm axis]
  cases axis
  · simp only [SOCDState.tracker] at hout hl ⊢
    simp only [cleanUpDown_both mode dpad t 0 _ hboth, if_neg (not_le.mpr hout)]
    cases hd : s.upDownTracker.lastDirection <;> cases mode <;>
      simp_all [policyWinner, dirMask, opposite, Axis.has, GAMEPAD_MASK_UP, GAMEPAD_MASK_DOWN]
  · simp only [SOCDState.tracker] at hout hl ⊢
    simp only [cleanLeftRight_both mode dpad t 0 _ hboth, if_neg (not_le.mpr hout)]
    cases hd : s.leftRightTracker.lastDirection <;> cases mode <;>
      simp_all [policyWinner, dirMask, opposite, Axis.has, GAMEPAD_MASK_LEFT,
        GAMEPAD_MASK_RIGHT]

/-- The model of the `uint32_t` subtraction is the integer difference reduced
modulo `2^32`. -/
theorem sub32_eq_emod (now last : Nat) :
    (sub32 now last : Int) = ((now : Int) - (last : Int)) % 4294967296 := by
  unfold sub32
  omega

/-- A call leaves the timestamp of an axis as it is or stores the clock value
of the call. -/
theorem runSOCDCleaner_time (mode : SOCDMode) (dpad t : Nat) (s : SOCDState) (axis : Axis) :
    ((runSOCDCleaner mode dpad t s).2.tracker axis).lastInputTime
        = (s.tracker axis).lastInputTime
      ∨ ((runSOCDCleaner mode dpad t s).2.tracker axis).lastInputTime = t := by
  by_cases hm : mode = SOCD_MODE_BYPASS
  · left
    simp [runSOCDCleaner, hm]
  · rw [runSOCDCleaner_axis_tracker mode dpad t s hm axis]
    cases axis
    · simp only [SOCDState.tracker]
      by_cases hb : dpad &&& (GAMEPAD_MASK_UP ||| GAMEPAD_MASK_DOWN)
          = GAMEPAD_MASK_UP ||| GAMEPAD_MASK_DOWN
      · rw [cleanUpDown_both mode dpad t 0 _ hb]
        split_ifs <;> exact Or.inl rfl
      · rw [cleanUpDown_free mode dpad t 0 _ hb]
        split_ifs <;> first | exact Or.inl rfl | exact Or.inr rfl
    · simp only [SOCDState.tracker]
      by_cases hb : dpad &&& (GAMEPAD_MASK_LEFT ||| GAMEPAD_MASK_RIGHT)
          = GAMEPAD_MASK_LEFT ||| GAMEPAD_MASK_RIGHT
      · rw [cleanLeftRight_both mode dpad t 0 _ hb]
        split_ifs <;> exact Or.inl rfl
      · rw [cleanLeftRight_free mode dpad t 0 _ hb]
        split_ifs <;> first | exact Or.inl rfl | exact Or.inr rfl

theorem socdCalls_append_snd (l1 l2 : List SOCDCall) :
    ∀ s : SOCDState, (socdCalls s (l1 ++ l2)).2 = (socdCalls (socdCalls s l1).2 l2).2 := by
  induction l1 with
  | nil => intro s; rfl
  | cons c rest ih =>
    intro s
    simp only [List.cons_append, socdCalls]
    exact ih _

/-- After a sequence of calls the timestamp of an axis is the one it started
from or the clock value of one of the calls. -/
theorem socdCalls_time (axis : Axis) (calls : List SOCDCall) :
    ∀ s : SOCDState,
      ((socdCalls s calls).2.tracker axis).lastInputTime = (s.tracker axis).lastInputTime
        ∨ ∃ c ∈ calls, ((socdCalls s calls).2.tracker axis).lastInputTime = c.currentTime := by
  induction calls with
  | nil => intro s; exact Or.inl rfl
  | cons c rest ih =>
    intro s
    simp only [socdCalls]
    rcases ih (runSOCDCleaner c.mode c.dpad c.currentTime s).2 with h | ⟨c1, hc1, h⟩
    · rcases runSOCDCleaner_time c.mode c.dpad c.currentTime s axis with k | k
      · exact Or.inl (h.trans k)
      · exact Or.inr ⟨c, List.mem_cons_self c rest, h.trans k⟩
    · exact Or.inr ⟨c1, List.mem_cons_of_mem c hc1, h⟩

/-! ## Auxiliary lemmas: one step of the four-way filter -/

theorem dirMask_ne_zero (d : DpadDirection) (hd : d ≠ DIRECTION_NONE) : dirMask d ≠ 0 := by
  cases d <;> first | exact absurd rfl hd | decide

theorem getMaskFromDirection_eq (d : DpadDirection) (hd : d ≠ DIRECTION_NONE) :
    getMaskFromDirection d = some (dirMask d) := by
  cases d <;> first | exact absurd rfl hd | rfl

theorem mem_updateDpadState (s : FourWayState) (dpad : Nat) (d x : DpadDirection)
    (hx : x ∈ (updateDpadState s dpad d).dpadList) : x ∈ s.dpadList ∨ x = d := by
  unfold updateDpadState at hx
  split_ifs at hx
  · rcases List.mem_append.mp hx with h | h
    · exact Or.inl h
    · exact Or.inr (List.mem_singleton.mp h)
  · exact Or.inl hx
  · exact Or.inl (List.mem_of_mem_filter hx)
  · exact Or.inl hx

theorem updateDpad_eq_some (s : FourWayState) (dpad : Nat) (d : DpadDirection)
    (hd : d ≠ DIRECTION_NONE) (hs : DIRECTION_NONE ∉ s.dpadList) :
    updateDpad s dpad d
      = some (lastMask (updateDpadState s dpad d).dpadList, updateDpadState s dpad d) := by
  have hnone : DIRECTION_NONE ∉ (updateDpadState s dpad d).dpadList := by
    intro h
    rcases mem_updateDpadState s dpad d _ h with k | k
    · exact hs k
    · exact hd k.symm
  have hst : (if dpad &&& dirMask d ≠ 0 then
        if (!s.held d) = true then
          ({ dpadList := s.dpadList ++ [d],
             inList := s.inList.set d.toNat true } : FourWayState)
        else s
      else
        if s.held d = true then
          { dpadList := s.dpadList.filter (fun x => x ≠ d),
            inList := s.inList.set d.toNat false }
        else s) = updateDpadState s dpad d := by
    unfold updateDpadState pressed
    by_cases hp : dpad &&& dirMask d ≠ 0 <;> simp [hp]
  simp only [updateDpad, getMaskFromDirection_eq d hd, Option.some_bind, hst]
  unfold lastMask
  cases hl : (updateDpadState s dpad d).dpadList.getLast? with
  | none => rfl
  | some last =>
    have hmem : last ∈ (updateDpadState s dpad d).dpadList := List.mem_of_getLast?_eq_some hl
    have hne : last ≠ DIRECTION_NONE := fun h => hnone (h ▸ hmem)
    simp [getMaskFromDirection_eq last hne]

theorem updateDpadState_none_not_mem (s : FourWayState) (dpad : Nat) (d : DpadDirection)
    (hd : d ≠ DIRECTION_NONE) (hs : DIRECTION_NONE ∉ s.dpadList) :
    DIRECTION_NONE ∉ (updateDpadState s dpad d).dpadList := by
  intro h
  rcases mem_updateDpadState s dpad d _ h with k | k
  · exact hs k
  · exact hd k.symm

theorem filterToFourWayMode_eq_some (s : FourWayState) (dpad : Nat)
    (hs : DIRECTION_NONE ∉ s.dpadList) :
    filterToFourWayMode s dpad
      = some (lastMask (filterState s dpad).dpadList, filterState s dpad) := by
  have h1 := updateDpadState_none_not_mem s dpad DIRECTION_UP (by decide) hs
  have h2 := updateDpadState_none_not_mem _ dpad DIRECTION_DOWN (by decide) h1
  have h3 := updateDpadState_none_not_mem _ dpad DIRECTION_LEFT (by decide) h2
  simp only [filterToFourWayMode, updateDpad_eq_some s dpad DIRECTION_UP (by decide) hs,
    Option.some_bind, updateDpad_eq_some _ dpad DIRECTION_DOWN (by decide) h1,
    updateDpad_eq_some _ dpad DIRECTION_LEFT (by decide) h2,
    updateDpad_eq_some _ dpad DIRECTION_RIGHT (by decide) h3, filterState]

/-- A step that returns has made both lookups inside the table. -/
theorem updateDpad_lookups (s : FourWayState) (dpad : Nat) (d : DpadDirection) (r : Nat)
    (s1 : FourWayState) (h : updateDpad s dpad d = some (r, s1)) :
    d ≠ DIRECTION_NONE
      ∧ ∀ last, s1.dpadList.getLast? = some last → last ≠ DIRECTION_NONE := by
  have hd : d ≠ DIRECTION_NONE := by
    intro hd
    subst hd
    simp [updateDpad, getMaskFromDirection, DpadDirection.toNat] at h
  refine ⟨hd, ?_⟩
  intro last hl hlast
  subst hlast
  simp only [updateDpad, getMaskFromDirection_eq d hd, Option.some_bind] at h
  split at h
  · next hnone =>
    simp only [Option.some.injEq, Prod.mk.injEq] at h
    rw [h.2, hl] at hnone
    exact absurd hnone (by simp)
  · next x hsome =>
    cases hx : getMaskFromDirection x with
    | none =>
      rw [hx] at h
      simp at h
    | some m =>
      rw [hx] at h
      simp only [Option.map_some', Option.some.injEq, Prod.mk.injEq] at h
      rw [h.2, hl] at hsome
      have : x = DIRECTION_NONE := (Option.some.inj hsome).symm
      subst this
      simp [getMaskFromDirection, DpadDirection.toNat] at hx

theorem toNat_ne (d1 d2 : DpadDirection) (h : d1 ≠ d2) : d1.toNat ≠ d2.toNat := by
  cases d1 <;> cases d2 <;> first | exact absurd rfl h | decide

theorem held_set_ne (s : FourWayState) (l : List DpadDirection) (d d1 : DpadDirection)
    (b : Bool) (h : d1 ≠ d) :
    FourWayState.held { dpadList := l, inList := s.inList.set d.toNat b } d1 = s.held d1 := by
  simp only [FourWayState.held, List.getD_eq_getElem?_getD]
  rw [List.getElem?_set_ne (toNat_ne d d1 (Ne.symm h))]

theorem held_set_self (s : FourWayState) (l : List DpadDirection) (d : DpadDirection)
    (b : Bool) (h5 : s.inList.length = 5) :
    FourWayState.held { dpadList := l, inList := s.inList.set d.toNat b } d = b := by
  have hlt : d.toNat < s.inList.length := by rw [h5]; cases d <;> decide
  simp only [FourWayState.held, List.getD_eq_getElem?_getD]
  rw [List.getElem?_set_self hlt]
  rfl

/-- A step leaves the flags of the other directions as they are. -/
theorem updateDpadState_held_ne (s : FourWayState) (dpad : Nat) (d d1 : DpadDirection)
    (h : d1 ≠ d) : (updateDpadState s dpad d).held d1 = s.held d1 := by
  unfold updateDpadState
  split_ifs <;> first | rfl | exact held_set_ne s _ d d1 _ h

/-- After a step the flag of its direction says whether its bit is set. -/
theorem updateDpadState_held_self (s : FourWayState) (dpad : Nat) (d : DpadDirection)
    (h5 : s.inList.length = 5) : (updateDpadState s dpad d).held d = pressed dpad d := by
  unfold updateDpadState
  by_cases hp : pressed dpad d = true <;> by_cases hh : s.held d = true
  · simp [hp, hh]
  · simp only [hp, hh, if_true, Bool.not_eq_true] 
    simp [held_set_self s _ d true h5]
  · simp only [hp, hh, if_true, if_false]
    simp [held_set_self s _ d false h5, hp]
  · simp only [hp, hh, if_false]
    simp [hp, hh]

theorem updateDpadState_length (s : FourWayState) (dpad : Nat) (d : DpadDirection) :
    (updateDpadState s dpad d).inList.length = s.inList.length := by
  unfold updateDpadState
  split_ifs <;> simp

/-- The history after a step, when the direction is in the history only if its
flag is set. -/
theorem updateDpadState_dpadList (s : FourWayState) (dpad : Nat) (d : DpadDirection)
    (hag : d ∈ s.dpadList → s.held d = true) :
    (updateDpadState s dpad d).dpadList
      = s.dpadList.filter (fun x => decide (x ≠ d) || pressed dpad d)
        ++ (if pressed dpad d && !s.held d then [d] else []) := by
  unfold updateDpadState
  by_cases hp : pressed dpad d = true <;> by_cases hh : s.held d = true
  · simp [hp, hh]
  · simp [hp, hh]
  · simp [hp, hh]
  · have hnot : d ∉ s.dpadList := fun h => hh (hag h)
    simp only [hp, hh, Bool.false_eq_true, if_false, Bool.false_and, Bool.or_false,
      List.append_nil]
    symm
    apply List.filter_eq_self.mpr
    intro a ha
    simp only [decide_eq_true_eq]
    exact fun h => hnot (h ▸ ha)

theorem agree_step (s : FourWayState) (dpad : Nat) (d d1 : DpadDirection) (hne : d1 ≠ d)
    (h : d1 ∈ s.dpadList → s.held d1 = true) :
    d1 ∈ (updateDpadState s dpad d).dpadList → (updateDpadState s dpad d).held d1 = true := by
  intro hmem
  rw [updateDpadState_held_ne s dpad d d1 hne]
  rcases mem_updateDpadState s dpad d d1 hmem with k | k
  · exact h k
  · exact absurd k hne

/-- On cardinal directions, keeping what is not one of the four released
directions is keeping what is pressed. -/
theorem keep_pressed (dpad : Nat) (l : List DpadDirection)
    (hl : DIRECTION_NONE ∉ l) :
    List.filter (fun x => decide (x ≠ DIRECTION_RIGHT) || pressed dpad DIRECTION_RIGHT)
      (List.filter (fun x => decide (x ≠ DIRECTION_LEFT) || pressed dpad DIRECTION_LEFT)
        (List.filter (fun x => decide (x ≠ DIRECTION_DOWN) || pressed dpad DIRECTION_DOWN)
          (List.filter (fun x => decide (x ≠ DIRECTION_UP) || pressed dpad DIRECTION_UP) l)))
      = l.filter (fun x => pressed dpad x) := by
  simp only [List.filter_filter]
  apply List.filter_congr
  intro x hx
  have hne : x ≠ DIRECTION_NONE := fun h => hl (h ▸ hx)
  cases x <;> first | exact absurd rfl hne | simp

theorem filter_other (d d1 : DpadDirection) (p c : Bool) (h : d ≠ d1) :
    List.filter (fun x => decide (x ≠ d1) || p) (if c = true then [d] else [])
      = if c = true then [d] else [] := by
  cases c <;> simp [h]

theorem filter_four (g : DpadDirection → Bool) (a b c d : DpadDirection) :
    List.filter g [a, b, c, d]
      = (if g a = true then [a] else []) ++ ((if g b = true then [b] else [])
          ++ ((if g c = true then [c] else []) ++ (if g d = true then [d] else []))) := by
  cases ha : g a <;> cases hb : g b <;> cases hc : g c <;> cases hd : g d <;>
    simp [List.filter, ha, hb, hc, hd]

theorem filterState_dpadList (s : FourWayState) (dpad : Nat) (hs : s.Agrees) :
    (filterState s dpad).dpadList = fourWayHistory s dpad := by
  have hnone : DIRECTION_NONE ∉ s.dpadList := fun h => ((hs _).mp h).1 rfl
  have hag : ∀ d, d ∈ s.dpadList → s.held d = true := fun d h => ((hs d).mp h).2
  have g1 := agree_step s dpad DIRECTION_UP DIRECTION_DOWN (by decide) (hag _)
  have g2 := agree_step _ dpad DIRECTION_DOWN DIRECTION_LEFT (by decide)
    (agree_step s dpad DIRECTION_UP DIRECTION_LEFT (by decide) (hag _))
  have g3 := agree_step _ dpad DIRECTION_LEFT DIRECTION_RIGHT (by decide)
    (agree_step _ dpad DIRECTION_DOWN DIRECTION_RIGHT (by decide)
      (agree_step s dpad DIRECTION_UP DIRECTION_RIGHT (by decide) (hag _)))
  have k1 : (updateDpadState s dpad DIRECTION_UP).held DIRECTION_DOWN
      = s.held DIRECTION_DOWN := updateDpadState_held_ne s dpad _ _ (by decide)
  have k2 : (updateDpadState (updateDpadState s dpad DIRECTION_UP) dpad
      DIRECTION_DOWN).held DIRECTION_LEFT = s.held DIRECTION_LEFT := by
    rw [updateDpadState_held_ne _ dpad _ _ (by decide),
      updateDpadState_held_ne s dpad _ _ (by decide)]
  have k3 : (updateDpadState (updateDpadState (updateDpadState s dpad DIRECTION_UP) dpad
      DIRECTION_DOWN) dpad DIRECTION_LEFT).held DIRECTION_RIGHT = s.held DIRECTION_RIGHT := by
    rw [updateDpadState_held_ne _ dpad _ _ (by decide),
      updateDpadState_held_ne _ dpad _ _ (by decide),
      updateDpadState_held_ne s dpad _ _ (by decide)]
  unfold filterState
  rw [updateDpadState_dpadList _ dpad DIRECTION_RIGHT g3, k3,
    updateDpadState_dpadList _ dpad DIRECTION_LEFT g2, k2,
    updateDpadState_dpadList _ dpad DIRECTION_DOWN g1, k1,
    updateDpadState_dpadList s dpad DIRECTION_UP (hag _)]
  unfold fourWayHistory
  simp only [List.filter_append, List.append_assoc]
  rw [keep_pressed dpad s.dpadList hnone, filter_four,
    filter_other DIRECTION_UP DIRECTION_DOWN _ _ (by decide),
    filter_other DIRECTION_UP DIRECTION_LEFT _ _ (by decide),
    filter_other DIRECTION_UP DIRECTION_RIGHT _ _ (by decide),
    filter_other DIRECTION_DOWN DIRECTION_LEFT _ _ (by decide),
    filter_other DIRECTION_DOWN DIRECTION_RIGHT _ _ (by decide),
    filter_other DIRECTION_LEFT DIRECTION_RIGHT _ _ (by decide)]

theorem agrees_init : FourWayState.init.Agrees := by
  intro d
  cases d <;> decide

theorem fourWayHistory_init (dpad : Nat) :
    lastMask (fourWayHistory FourWayState.init dpad)
      = if pressed dpad DIRECTION_RIGHT = true then GAMEPAD_MASK_RIGHT
        else if pressed dpad DIRECTION_LEFT = true then GAMEPAD_MASK_LEFT
        else if pressed dpad DIRECTION_DOWN = true then GAMEPAD_MASK_DOWN
        else if pressed dpad DIRECTION_UP = true then GAMEPAD_MASK_UP
        else 0 := by
  have hheld : ∀ d, FourWayState.init.held d = false := by
    intro d
    cases d <;> rfl
  unfold fourWayHistory
  rw [filter_four]
  simp only [hheld, Bool.not_false, Bool.and_true]
  cases pressed dpad DIRECTION_UP <;> cases pressed dpad DIRECTION_DOWN <;>
    cases pressed dpad DIRECTION_LEFT <;> cases pressed dpad DIRECTION_RIGHT <;> rfl

/-! ## Auxiliary lemmas: the invariant of the four-way filter -/

theorem cardinal_nodup_length (l : List DpadDirection) (hn : l.Nodup)
    (hc : ∀ d ∈ l, d ≠ DIRECTION_NONE) : l.length ≤ 4 := by
  have hsub : l ⊆ [DIRECTION_UP, DIRECTION_DOWN, DIRECTION_LEFT, DIRECTION_RIGHT] := by
    intro d hd
    have hne := hc d hd
    cases d <;> first | exact absurd rfl hne | simp
  exact (hn.subperm hsub).length_le

theorem valid_init : FourWayState.init.Valid := by
  refine ⟨rfl, ?_, List.nodup_nil, Nat.zero_le _, ?_⟩
  · intro d hd
    exact absurd hd (List.not_mem_nil d)
  · intro d
    cases d <;> decide

theorem valid_step (s : FourWayState) (dpad : Nat) (d : DpadDirection)
    (hd : d ≠ DIRECTION_NONE) (hs : s.Valid) : (updateDpadState s dpad d).Valid := by
  obtain ⟨h5, hcard, hnd, -, hiff⟩ := hs
  have hnone : DIRECTION_NONE ∉ s.dpadList := fun h => hcard _ h rfl
  have hlist := updateDpadState_dpadList s dpad d (fun h => (hiff d).mp h)
  have hcard1 : ∀ x ∈ (updateDpadState s dpad d).dpadList, x ≠ DIRECTION_NONE := by
    intro x hx hx0
    exact updateDpadState_none_not_mem s dpad d hd hnone (hx0 ▸ hx)
  have hnd1 : (updateDpadState s dpad d).dpadList.Nodup := by
    rw [hlist]
    by_cases hc : (pressed dpad d && !s.held d) = true
    · have hnot : d ∉ s.dpadList := by
        intro h
        have := (hiff d).mp h
        simp [this] at hc
      rw [if_pos hc]
      refine (hnd.filter _).append (List.nodup_singleton d) ?_
      intro x hx hx1
      rw [List.mem_singleton] at hx1
      exact hnot (hx1 ▸ List.mem_of_mem_filter hx)
    · rw [if_neg hc, List.append_nil]
      exact hnd.filter _
  refine ⟨by rw [updateDpadState_length, h5], hcard1, hnd1,
    cardinal_nodup_length _ hnd1 hcard1, ?_⟩
  intro x
  by_cases hx : x = d
  · subst hx
    rw [updateDpadState_held_self s dpad x h5, hlist]
    by_cases hp : pressed dpad x = true <;> by_cases hh : s.held x = true
    · simp [hp, hh, (hiff x).mpr hh]
    · simp [hp, hh]
    · simp [hp, hh]
    · simp [hp, hh]
  · rw [updateDpadState_held_ne s dpad d x hx, ← hiff x, hlist]
    by_cases hc : (pressed dpad d && !s.held d) = true
    · simp [hc, hx]
    · simp [hc, hx]

theorem valid_filterState (s : FourWayState) (dpad : Nat) (hs : s.Valid) :
    (filterState s dpad).Valid :=
  valid_step _ dpad DIRECTION_RIGHT (by decide)
    (valid_step _ dpad DIRECTION_LEFT (by decide)
      (valid_step _ dpad DIRECTION_DOWN (by decide)
        (valid_step s dpad DIRECTION_UP (by decide) hs)))

theorem pressed_none (dpad : Nat) : pressed dpad DIRECTION_NONE = false := by
  simp [pressed, dirMask]

/-- After a complete call the flags are the directional bits of the input. -/
theorem filterState_held (s : FourWayState) (dpad : Nat) (hs : s.Valid) (d : DpadDirection) :
    (filterState s dpad).held d = pressed dpad d := by
  have v1 := valid_step s dpad DIRECTION_UP (by decide) hs
  have v2 := valid_step _ dpad DIRECTION_DOWN (by decide) v1
  have v3 := valid_step _ dpad DIRECTION_LEFT (by decide) v2
  unfold filterState
  cases d
  · rw [updateDpadState_held_ne _ dpad _ _ (by decide),
      updateDpadState_held_ne _ dpad _ _ (by decide),
      updateDpadState_held_ne _ dpad _ _ (by decide),
      updateDpadState_held_ne _ dpad _ _ (by decide), pressed_none]
    have hnot : DIRECTION_NONE ∉ s.dpadList := fun h => hs.2.1 _ h rfl
    cases hh : s.held DIRECTION_NONE
    · rfl
    · exact absurd ((hs.2.2.2.2 _).mpr hh) hnot
  · rw [updateDpadState_held_ne _ dpad _ _ (by decide),
      updateDpadState_held_ne _ dpad _ _ (by decide),
      updateDpadState_held_ne _ dpad _ _ (by decide),
      updateDpadState_held_self s dpad _ hs.1]
  · rw [updateDpadState_held_ne _ dpad _ _ (by decide),
      updateDpadState_held_ne _ dpad _ _ (by decide),
      updateDpadState_held_self _ dpad _ v1.1]
  · rw [updateDpadState_held_ne _ dpad _ _ (by decide),
      updateDpadState_held_self _ dpad _ v2.1]
  · rw [updateDpadState_held_self _ dpad _ v3.1]

theorem and_single_bit (m : Nat) (d : DpadDirection) :
    m &&& dirMask d = 0 ∨ m &&& dirMask d = dirMask d := by
  have h1 : m &&& dirMask d ≤ dirMask d := Nat.and_le_right
  have h2 : (m &&& dirMask d) &&& dirMask d = m &&& dirMask d := by
    rw [Nat.and_assoc, Nat.and_self]
  generalize m &&& dirMask d = v at h1 h2
  cases d <;> simp only [dirMask, GAMEPAD_MASK_UP, GAMEPAD_MASK_DOWN, GAMEPAD_MASK_LEFT,
    GAMEPAD_MASK_RIGHT] at h1 h2 ⊢ <;> interval_cases v <;> revert h2 <;> decide

theorem no_bits_iff (m : Nat) : m &&& 15 = 0 ↔ ∀ d : DpadDirection, pressed m d = false := by
  have e : ∀ d : DpadDirection, m &&& dirMask d = (m &&& 15) &&& dirMask d := by
    intro d
    rw [Nat.and_assoc]
    cases d <;> rfl
  constructor
  · intro h d
    simp [pressed, e d, h]
  · intro h
    have h1 : m &&& 15 ≤ 15 := Nat.and_le_right
    have hu := h DIRECTION_UP
    have hd := h DIRECTION_DOWN
    have hl := h DIRECTION_LEFT
    have hr := h DIRECTION_RIGHT
    simp only [pressed, e, decide_eq_false_iff_not, not_not] at hu hd hl hr
    simp only [dirMask, GAMEPAD_MASK_UP, GAMEPAD_MASK_DOWN, GAMEPAD_MASK_LEFT,
      GAMEPAD_MASK_RIGHT] at hu hd hl hr
    generalize m &&& 15 = v at h1 hu hd hl hr
    interval_cases v <;> revert hu hd hl hr <;> decide

/-- The mask returned by a complete call from a state that satisfies the
invariant. -/
theorem filterState_result (s : FourWayState) (dpad : Nat) (hs : s.Valid) :
    (lastMask (filterState s dpad).dpadList = 0 ↔ dpad &&& 15 = 0)
      ∧ (lastMask (filterState s dpad).dpadList ≠ 0 →
          (lastMask (filterState s dpad).dpadList = GAMEPAD_MASK_UP
            ∨ lastMask (filterState s dpad).dpadList = GAMEPAD_MASK_DOWN
            ∨ lastMask (filterState s dpad).dpadList = GAMEPAD_MASK_LEFT
            ∨ lastMask (filterState s dpad).dpadList = GAMEPAD_MASK_RIGHT)
          ∧ dpad &&& lastMask (filterState s dpad).dpadList
            = lastMask (filterState s dpad).dpadList) := by
  have hv := valid_filterState s dpad hs
  have hheld := filterState_held s dpad hs
  have hmem : ∀ d, d ∈ (filterState s dpad).dpadList ↔ pressed dpad d = true := by
    intro d
    rw [hv.2.2.2.2 d, hheld d]
  unfold lastMask
  cases hl : (filterState s dpad).dpadList.getLast? with
  | none =>
    have hnil : (filterState s dpad).dpadList = [] := List.getLast?_eq_none_iff.mp hl
    refine ⟨⟨fun _ => ?_, fun _ => rfl⟩, fun h => absurd rfl h⟩
    rw [no_bits_iff]
    intro d
    cases hp : pressed dpad d
    · rfl
    · have := (hmem d).mpr hp
      rw [hnil] at this
      exact absurd this (List.not_mem_nil d)
  | some x =>
    have hx : x ∈ (filterState s dpad).dpadList := List.mem_of_getLast?_eq_some hl
    have hne : x ≠ DIRECTION_NONE := hv.2.1 x hx
    have hp : pressed dpad x = true := (hmem x).mp hx
    have hbit : dpad &&& dirMask x = dirMask x := by
      rcases and_single_bit dpad x with h | h
      · simp [pressed, h] at hp
      · exact h
    refine ⟨⟨fun h => absurd h (dirMask_ne_zero x hne), fun h => ?_⟩, fun _ => ⟨?_, hbit⟩⟩
    · have := (no_bits_iff dpad).mp h x
      rw [hp] at this
      exact absurd this (by decide)
    · cases x
      · exact absurd rfl hne
      · exact Or.inl rfl
      · exact Or.inr (Or.inl rfl)
      · exact Or.inr (Or.inr (Or.inl rfl))
      · exact Or.inr (Or.inr (Or.inr rfl))

theorem filterCalls_valid (masks : List Nat) :
    ∀ s : FourWayState, s.Valid →
      ∃ outs sF, filterCalls s masks = some (outs, sF) ∧ sF.Valid := by
  induction masks with
  | nil =>
    intro s hs
    exact ⟨[], s, rfl, hs⟩
  | cons dpad rest ih =>
    intro s hs
    have hnone : DIRECTION_NONE ∉ s.dpadList := fun h => hs.2.1 _ h rfl
    obtain ⟨outs, sF, e2, hv⟩ := ih _ (valid_filterState s dpad hs)
    exact ⟨lastMask (filterState s dpad).dpadList :: outs, sF,
      by simp [filterCalls, filterToFourWayMode_eq_some s dpad hnone, e2], hv⟩

/-! ## Properties of the specification, continued -/

/-- C11. Axis independence: for every mode other than Bypass and every clock
value, two calls whose inputs agree on the two bits of an axis and whose states
agree on the tracker of that axis give the same two result bits of the axis
and the same resulting tracker of the axis, whatever the bits and the tracker
of the other axis are in either call. -/
theorem axis_independence (mode : SOCDMode) (currentTime dpad1 dpad2 : Nat)
    (s1 s2 : SOCDState) (axis : Axis) (hm : mode ≠ SOCD_MODE_BYPASS)
    (hbits : dpad1 &&& axis.mask = dpad2 &&& axis.mask)
    (htracker : s1.tracker axis = s2.tracker axis) :
    (runSOCDCleaner mode dpad1 currentTime s1).1 &&& axis.mask
        = (runSOCDCleaner mode dpad2 currentTime s2).1 &&& axis.mask
      ∧ (runSOCDCleaner mode dpad1 currentTime s1).2.tracker axis
        = (runSOCDCleaner mode dpad2 currentTime s2).2.tracker axis := by
  rw [runSOCDCleaner_axis_bits mode dpad1 currentTime s1 hm axis,
    runSOCDCleaner_axis_bits mode dpad2 currentTime s2 hm axis,
    runSOCDCleaner_axis_tracker mode dpad1 currentTime s1 hm axis,
    runSOCDCleaner_axis_tracker mode dpad2 currentTime s2 hm axis]
  cases axis
  · have ht : s1.upDownTracker = s2.upDownTracker := htracker
    simp only [ht, cleanUpDown_congr mode dpad1 dpad2 currentTime 0 _ hbits, and_self]
  · have ht : s1.leftRightTracker = s2.leftRightTracker := htracker
    simp only [ht, cleanLeftRight_congr mode dpad1 dpad2 currentTime 0 _ hbits, and_self]

/-- Two second-input calls at clock value 50 that share the vertical input bits
and tracker but differ on the horizontal axis give the same vertical result
bits and the same vertical tracker. -/
theorem axis_independence_witness :
    (runSOCDCleaner SOCD_MODE_SECOND_INPUT_PRIORITY 3 50
        { upDownTracker := { lastInputTime := 0, lastDirection := DIRECTION_UP },
          leftRightTracker := {} }).1 &&& Axis.Vertical.mask
        = (runSOCDCleaner SOCD_MODE_SECOND_INPUT_PRIORITY 15 50
            { upDownTracker := { lastInputTime := 0, lastDirection := DIRECTION_UP },
              leftRightTracker := { lastInputTime := 45, lastDirection := DIRECTION_LEFT } }).1
          &&& Axis.Vertical.mask
      ∧ (runSOCDCleaner SOCD_MODE_SECOND_INPUT_PRIORITY 3 50
        { upDownTracker := { lastInputTime := 0, lastDirection := DIRECTION_UP },
          leftRightTracker := {} }).2.tracker Axis.Vertical
        = (runSOCDCleaner SOCD_MODE_SECOND_INPUT_PRIORITY 15 50
            { upDownTracker := { lastInputTime := 0, lastDirection := DIRECTION_UP },
              leftRightTracker := { lastInputTime := 45, lastDirection := DIRECTION_LEFT } }).2.tracker
          Axis.Vertical :=
  axis_independence SOCD_MODE_SECOND_INPUT_PRIORITY 50 3 15
    { upDownTracker := { lastInputTime := 0, lastDirection := DIRECTION_UP },
      leftRightTracker := {} }
    { upDownTracker := { lastInputTime := 0, lastDirection := DIRECTION_UP },
      leftRightTracker := { lastInputTime := 45, lastDirection := DIRECTION_LEFT } }
    Axis.Vertical (by decide) (by decide) (by decide)

/-- C12 as stated fails: after Up alone at 0 the vertical tracker remembers Up
with timestamp 0; Up alone again at 100 stores 100, so Up+Down at 105 falls
inside the window and the three calls return Up, Up and no direction. -/
theorem repeated_press_restarts_window :
    ((afterUpAlone SOCD_MODE_FIRST_INPUT_PRIORITY).tracker Axis.Vertical).lastDirection
        = DIRECTION_UP
      ∧ ((afterUpAlone SOCD_MODE_FIRST_INPUT_PRIORITY).tracker Axis.Vertical).lastInputTime = 0
      ∧ ((runSOCDCleaner SOCD_MODE_FIRST_INPUT_PRIORITY GAMEPAD_MASK_UP 100
          (afterUpAlone SOCD_MODE_FIRST_INPUT_PRIORITY)).2.tracker Axis.Vertical).lastInputTime
        = 100
      ∧ ((runSOCDCleaner SOCD_MODE_FIRST_INPUT_PRIORITY GAMEPAD_MASK_UP 100
          (afterUpAlone SOCD_MODE_FIRST_INPUT_PRIORITY)).2.tracker Axis.Vertical).lastInputTime
        ≠ ((afterUpAlone SOCD_MODE_FIRST_INPUT_PRIORITY).tracker Axis.Vertical).lastInputTime
      ∧ (socdCalls SOCDState.init
          [{ mode := SOCD_MODE_FIRST_INPUT_PRIORITY, dpad := GAMEPAD_MASK_UP, currentTime := 0 },
           { mode := SOCD_MODE_FIRST_INPUT_PRIORITY, dpad := GAMEPAD_MASK_UP, currentTime := 100 },
           { mode := SOCD_MODE_FIRST_INPUT_PRIORITY,
             dpad := GAMEPAD_MASK_UP ||| GAMEPAD_MASK_DOWN, currentTime := 105 }]).1
        = [GAMEPAD_MASK_UP, GAMEPAD_MASK_UP, 0] := by
  decide

/-- C12 (amended). The window is measured from the most recent call in which
exactly one direction of the axis was set. In every mode other than Bypass a
call with exactly one direction `D` of an axis set stores the clock value in
the `lastInputTime` of the axis and `D` in its `lastDirection`, also when the
tracker already remembers `D`; the timestamp keeps its value only when the
clock value equals it, and a conflict on the axis at most 10 after that call is
neutral. Every other call (a Bypass call, a call with both directions of the
axis set, inside or outside the window, a call with neither set) leaves the
`lastInputTime` of the axis as it is, from every state. So after any run of
such calls the timestamp is still the clock value of that single-direction
call, and a later conflict is inside the window, neutral, exactly when its
clock value is at most 10 past it, and otherwise gives the policy winner. -/
theorem single_press_restarts_window (mode : SOCDMode) (dpad currentTime : Nat)
    (s : SOCDState) (axis : Axis) (D : DpadDirection) (hm : mode ≠ SOCD_MODE_BYPASS)
    (hD : axis.has D = true) (hone : dpad &&& axis.mask = dirMask D) :
    ((runSOCDCleaner mode dpad currentTime s).2.tracker axis).lastInputTime = currentTime
      ∧ ((runSOCDCleaner mode dpad currentTime s).2.tracker axis).lastDirection = D
      ∧ (((runSOCDCleaner mode dpad currentTime s).2.tracker axis).lastInputTime
          = (s.tracker axis).lastInputTime ↔ currentTime = (s.tracker axis).lastInputTime)
      ∧ (∀ (mode2 : SOCDMode) (dpad2 t2 : Nat), mode2 ≠ SOCD_MODE_BYPASS →
          dpad2 &&& axis.mask = axis.mask → sub32 t2 currentTime ≤ 10 →
          (runSOCDCleaner mode2 dpad2 t2 (runSOCDCleaner mode dpad currentTime s).2).1
            &&& axis.mask = 0)
      ∧ (∀ (s0 : SOCDState) (mode0 : SOCDMode) (dpad0 t0 : Nat),
          (mode0 = SOCD_MODE_BYPASS ∨ dpad0 &&& axis.mask = axis.mask
            ∨ dpad0 &&& axis.mask = 0) →
          ((runSOCDCleaner mode0 dpad0 t0 s0).2.tracker axis).lastInputTime
            = (s0.tracker axis).lastInputTime)
      ∧ (∀ calls : List SOCDCall,
          (∀ c ∈ calls, c.mode = SOCD_MODE_BYPASS ∨ c.dpad &&& axis.mask = axis.mask
            ∨ c.dpad &&& axis.mask = 0) →
          ((socdCalls (runSOCDCleaner mode dpad currentTime s).2 calls).2.tracker
              axis).lastInputTime = currentTime
            ∧ ∀ (mode2 : SOCDMode) (dpad2 t2 : Nat), mode2 ≠ SOCD_MODE_BYPASS →
                dpad2 &&& axis.mask = axis.mask →
                (sub32 t2 currentTime ≤ 10 →
                  (runSOCDCleaner mode2 dpad2 t2
                      (socdCalls (runSOCDCleaner mode dpad currentTime s).2 calls).2).1
                      &&& axis.mask = 0
                    ∧ ((runSOCDCleaner mode2 dpad2 t2
                      (socdCalls (runSOCDCleaner mode dpad currentTime s).2 calls).2).2.tracker
                        axis).lastDirection = DIRECTION_NONE)
                ∧ (10 < sub32 t2 currentTime →
                  (((socdCalls (runSOCDCleaner mode dpad currentTime s).2 calls).2.tracker
                        axis).lastDirection = DIRECTION_NONE
                    ∨ axis.has ((socdCalls (runSOCDCleaner mode dpad currentTime s).2
                        calls).2.tracker axis).lastDirection = true) →
                  (runSOCDCleaner mode2 dpad2 t2
                      (socdCalls (runSOCDCleaner mode dpad currentTime s).2 calls).2).1
                      &&& axis.mask
                    = dirMask (policyWinner mode2 axis
                        ((socdCalls (runSOCDCleaner mode dpad currentTime s).2
                          calls).2.tracker axis).lastDirection))) := by
  have h := single_direction_tracker mode dpad currentTime s axis D hm hD hone
  have frame : ∀ (s0 : SOCDState) (mode0 : SOCDMode) (dpad0 t0 : Nat),
      (mode0 = SOCD_MODE_BYPASS ∨ dpad0 &&& axis.mask = axis.mask
        ∨ dpad0 &&& axis.mask = 0) →
      ((runSOCDCleaner mode0 dpad0 t0 s0).2.tracker axis).lastInputTime
        = (s0.tracker axis).lastInputTime := by
    intro s0 mode0 dpad0 t0 h0
    by_cases hm0 : mode0 = SOCD_MODE_BYPASS
    · simp [runSOCDCleaner, hm0]
    · rw [runSOCDCleaner_axis_tracker mode0 dpad0 t0 s0 hm0 axis]
      rcases h0 with h0 | hboth | hzero
      · exact absurd h0 hm0
      · cases axis
        · have hb : dpad0 &&& (GAMEPAD_MASK_UP ||| GAMEPAD_MASK_DOWN)
              = GAMEPAD_MASK_UP ||| GAMEPAD_MASK_DOWN := hboth
          simp only [SOCDState.tracker]
          unfold cleanUpDown
          simp only [hb, if_true]
          split_ifs <;> rfl
        · have hb : dpad0 &&& (GAMEPAD_MASK_LEFT ||| GAMEPAD_MASK_RIGHT)
              = GAMEPAD_MASK_LEFT ||| GAMEPAD_MASK_RIGHT := hboth
          simp only [SOCDState.tracker]
          unfold cleanLeftRight
          simp only [hb, if_true]
          split_ifs <;> rfl
      · cases axis
        · have hb : dpad0 &&& (GAMEPAD_MASK_UP ||| GAMEPAD_MASK_DOWN) = 0 := hzero
          simp only [SOCDState.tracker]
          unfold cleanUpDown
          simp only [hb]
          rw [if_neg (show ¬ (0 = GAMEPAD_MASK_UP ||| GAMEPAD_MASK_DOWN) by decide),
            if_neg (show ¬ (0 = GAMEPAD_MASK_UP) by decide),
            if_neg (show ¬ (0 = GAMEPAD_MASK_DOWN) by decide)]
        · have hb : dpad0 &&& (GAMEPAD_MASK_LEFT ||| GAMEPAD_MASK_RIGHT) = 0 := hzero
          simp only [SOCDState.tracker]
          unfold cleanLeftRight
          simp only [hb]
          rw [if_neg (show ¬ (0 = GAMEPAD_MASK_LEFT ||| GAMEPAD_MASK_RIGHT) by decide),
            if_neg (show ¬ (0 = GAMEPAD_MASK_LEFT) by decide),
            if_neg (show ¬ (0 = GAMEPAD_MASK_RIGHT) by decide)]
  have run : ∀ (calls : List SOCDCall) (s0 : SOCDState),
      (∀ c ∈ calls, c.mode = SOCD_MODE_BYPASS ∨ c.dpad &&& axis.mask = axis.mask
        ∨ c.dpad &&& axis.mask = 0) →
      ((socdCalls s0 calls).2.tracker axis).lastInputTime
        = (s0.tracker axis).lastInputTime := by
    intro calls
    induction calls with
    | nil => intro s0 _; rfl
    | cons c rest ih =>
      intro s0 hall
      simp only [socdCalls]
      rw [ih _ (fun x hx => hall x (List.mem_cons_of_mem c hx))]
      exact frame s0 c.mode c.dpad c.currentTime (hall c (List.mem_cons_self c rest))
  refine ⟨by rw [h], by rw [h], by rw [h], ?_, frame, ?_⟩
  · intro mode2 dpad2 t2 hm2 hboth hin
    exact (window_neutral mode2 dpad2 t2 _ axis hm2 hboth (by rw [h]; exact hin)).1
  · intro calls hcalls
    have ht : ((socdCalls (runSOCDCleaner mode dpad currentTime s).2 calls).2.tracker
        axis).lastInputTime = currentTime := by
      rw [run calls _ hcalls, h]
    refine ⟨ht, ?_⟩
    intro mode2 dpad2 t2 hm2 hboth
    constructor
    · intro hin
      have hw := window_neutral mode2 dpad2 t2 _ axis hm2 hboth (by rw [ht]; exact hin)
      exact ⟨hw.1, by rw [hw.2]⟩
    · intro hout hl
      exact outside_window_policy mode2 dpad2 t2 _ axis hm2 hboth (by rw [ht]; exact hout) hl

/-- Up alone at 0 and Up alone again at 100 in first-input mode: the timestamp
after the second call is 100; Up+Down at 105 gives no vertical bit; after that
conflict, a call with nothing pressed at 106 and a Bypass call at 107 the
timestamp is still 100, so Up+Down at 108 is inside the window and neutral. -/
theorem single_press_restarts_window_witness :
    ((runSOCDCleaner SOCD_MODE_FIRST_INPUT_PRIORITY GAMEPAD_MASK_UP 100
        (afterUpAlone SOCD_MODE_FIRST_INPUT_PRIORITY)).2.tracker Axis.Vertical).lastInputTime
        = 100
      ∧ (runSOCDCleaner SOCD_MODE_FIRST_INPUT_PRIORITY 3 105
          (runSOCDCleaner SOCD_MODE_FIRST_INPUT_PRIORITY GAMEPAD_MASK_UP 100
            (afterUpAlone SOCD_MODE_FIRST_INPUT_PRIORITY)).2).1 &&& Axis.Vertical.mask = 0
      ∧ ((socdCalls (runSOCDCleaner SOCD_MODE_FIRST_INPUT_PRIORITY GAMEPAD_MASK_UP 100
            (afterUpAlone SOCD_MODE_FIRST_INPUT_PRIORITY)).2
          [{ mode := SOCD_MODE_FIRST_INPUT_PRIORITY, dpad := 3, currentTime := 105 },
           { mode := SOCD_MODE_FIRST_INPUT_PRIORITY, dpad := 0, currentTime := 106 },
           { mode := SOCD_MODE_BYPASS, dpad := 1, currentTime := 107 }]).2.tracker
          Axis.Vertical).lastInputTime = 100
      ∧ (runSOCDCleaner SOCD_MODE_UP_PRIORITY 3 108
          (socdCalls (runSOCDCleaner SOCD_MODE_FIRST_INPUT_PRIORITY GAMEPAD_MASK_UP 100
              (afterUpAlone SOCD_MODE_FIRST_INPUT_PRIORITY)).2
            [{ mode := SOCD_MODE_FIRST_INPUT_PRIORITY, dpad := 3, currentTime := 105 },
             { mode := SOCD_MODE_FIRST_INPUT_PRIORITY, dpad := 0, currentTime := 106 },
             { mode := SOCD_MODE_BYPASS, dpad := 1, currentTime := 107 }]).2).1
          &&& Axis.Vertical.mask = 0 :=
  ⟨(single_press_restarts_window SOCD_MODE_FIRST_INPUT_PRIORITY GAMEPAD_MASK_UP 100
      (afterUpAlone SOCD_MODE_FIRST_INPUT_PRIORITY) Axis.Vertical DIRECTION_UP
      (by decide) (by decide) (by decide)).1,
    (single_press_restarts_window SOCD_MODE_FIRST_INPUT_PRIORITY GAMEPAD_MASK_UP 100
      (afterUpAlone SOCD_MODE_FIRST_INPUT_PRIORITY) Axis.Vertical DIRECTION_UP
      (by decide) (by decide) (by decide)).2.2.2.1 SOCD_MODE_FIRST_INPUT_PRIORITY 3 105
      (by decide) (by decide) (by decide),
    ((single_press_restarts_window SOCD_MODE_FIRST_INPUT_PRIORITY GAMEPAD_MASK_UP 100
      (afterUpAlone SOCD_MODE_FIRST_INPUT_PRIORITY) Axis.Vertical DIRECTION_UP
      (by decide) (by decide) (by decide)).2.2.2.2.2
      [{ mode := SOCD_MODE_FIRST_INPUT_PRIORITY, dpad := 3, currentTime := 105 },
       { mode := SOCD_MODE_FIRST_INPUT_PRIORITY, dpad := 0, currentTime := 106 },
       { mode := SOCD_MODE_BYPASS, dpad := 1, currentTime := 107 }] (by decide)).1,
    ((((single_press_restarts_window SOCD_MODE_FIRST_INPUT_PRIORITY GAMEPAD_MASK_UP 100
      (afterUpAlone SOCD_MODE_FIRST_INPUT_PRIORITY) Axis.Vertical DIRECTION_UP
      (by decide) (by decide) (by decide)).2.2.2.2.2
      [{ mode := SOCD_MODE_FIRST_INPUT_PRIORITY, dpad := 3, currentTime := 105 },
       { mode := SOCD_MODE_FIRST_INPUT_PRIORITY, dpad := 0, currentTime := 106 },
       { mode := SOCD_MODE_BYPASS, dpad := 1, currentTime := 107 }] (by decide)).2
      SOCD_MODE_UP_PRIORITY 3 108 (by decide) (by decide)).1 (by decide)).1⟩

/-- C13. Timestamp monotonicity: for every finite sequence of calls (any modes,
any masks) from the initial trackers whose clock values are non-decreasing, and
for each axis: at every call of the sequence the `lastInputTime` after the call
is at least the one before it, and it is `0` or the clock value of that call
or of an earlier one. -/
theorem timestamp_monotone (calls : List SOCDCall) (axis : Axis)
    (hclock : (calls.map SOCDCall.currentTime).Pairwise (fun a b => a ≤ b)) :
    ∀ (pre : List SOCDCall) (c : SOCDCall) (post : List SOCDCall),
      calls = pre ++ c :: post →
      ((socdCalls SOCDState.init pre).2.tracker axis).lastInputTime
          ≤ ((socdCalls SOCDState.init (pre ++ [c])).2.tracker axis).lastInputTime
        ∧ (((socdCalls SOCDState.init (pre ++ [c])).2.tracker axis).lastInputTime = 0
          ∨ ∃ c1 ∈ pre ++ [c],
              ((socdCalls SOCDState.init (pre ++ [c])).2.tracker axis).lastInputTime
                = c1.currentTime) := by
  intro pre c post hsplit
  have hinit : (SOCDState.init.tracker axis).lastInputTime = 0 := by cases axis <;> rfl
  constructor
  · rw [socdCalls_append_snd pre [c] SOCDState.init]
    simp only [socdCalls]
    rcases runSOCDCleaner_time c.mode c.dpad c.currentTime
        (socdCalls SOCDState.init pre).2 axis with k | k
    · exact le_of_eq k.symm
    · rw [k]
      rcases socdCalls_time axis pre SOCDState.init with h | ⟨c1, hc1, h⟩
      · rw [h, hinit]
        exact Nat.zero_le _
      · rw [h]
        rw [hsplit, List.map_append, List.pairwise_append] at hclock
        exact hclock.2.2 _ (List.mem_map_of_mem _ hc1) _
          (List.mem_map_of_mem _ (List.mem_cons_self c post))
  · rcases socdCalls_time axis (pre ++ [c]) SOCDState.init with h | h
    · exact Or.inl (h.trans hinit)
    · exact Or.inr h

/-- Up alone at 7, then Down alone at 100 (a Bypass call follows): the vertical
timestamp before the second call is at most the one after it. -/
theorem timestamp_monotone_witness :
    ((socdCalls SOCDState.init
        [{ mode := SOCD_MODE_FIRST_INPUT_PRIORITY, dpad := 1, currentTime := 7 }]).2.tracker
        Axis.Vertical).lastInputTime
      ≤ ((socdCalls SOCDState.init
        ([{ mode := SOCD_MODE_FIRST_INPUT_PRIORITY, dpad := 1, currentTime := 7 }]
          ++ [{ mode := SOCD_MODE_UP_PRIORITY, dpad := 2, currentTime := 100 }])).2.tracker
        Axis.Vertical).lastInputTime :=
  (timestamp_monotone
    [{ mode := SOCD_MODE_FIRST_INPUT_PRIORITY, dpad := 1, currentTime := 7 },
     { mode := SOCD_MODE_UP_PRIORITY, dpad := 2, currentTime := 100 },
     { mode := SOCD_MODE_BYPASS, dpad := 3, currentTime := 105 }] Axis.Vertical (by decide)
    [{ mode := SOCD_MODE_FIRST_INPUT_PRIORITY, dpad := 1, currentTime := 7 }]
    { mode := SOCD_MODE_UP_PRIORITY, dpad := 2, currentTime := 100 }
    [{ mode := SOCD_MODE_BYPASS, dpad := 3, currentTime := 105 }] rfl).1

/-- C14. The four-way filter equals its reference definition: for every filter
state in which the held flags and the history agree and every input mask, the
call returns, the history after it is the old history without the directions
whose bit is clear, followed by the directions whose bit is set and that were
not held, in the order Up, Down, Left, Right, and the returned value is the
mask of the last element of that history or `0` when it is empty. From the
initial state the call returns the latest pressed direction in the order Up,
Down, Left, Right (Right over Left over Down over Up). -/
theorem four_way_reference (s : FourWayState) (dpad : Nat) (hs : s.Agrees) :
    (filterToFourWayMode s dpad).map (fun p => p.2.dpadList) = some (fourWayHistory s dpad)
      ∧ (filterToFourWayMode s dpad).map Prod.fst = some (lastMask (fourWayHistory s dpad))
      ∧ (filterToFourWayMode FourWayState.init dpad).map Prod.fst
        = some (if pressed dpad DIRECTION_RIGHT = true then GAMEPAD_MASK_RIGHT
            else if pressed dpad DIRECTION_LEFT = true then GAMEPAD_MASK_LEFT
            else if pressed dpad DIRECTION_DOWN = true then GAMEPAD_MASK_DOWN
            else if pressed dpad DIRECTION_UP = true then GAMEPAD_MASK_UP
            else 0) := by
  have hnone : DIRECTION_NONE ∉ s.dpadList := fun h => ((hs _).mp h).1 rfl
  have h0 : DIRECTION_NONE ∉ FourWayState.init.dpadList := List.not_mem_nil _
  rw [filterToFourWayMode_eq_some s dpad hnone,
    filterToFourWayMode_eq_some FourWayState.init dpad h0]
  simp only [Option.map_some', filterState_dpadList s dpad hs,
    filterState_dpadList FourWayState.init dpad agrees_init, fourWayHistory_init, and_self]

/-- With Down and Left held in that order, the input Up+Left leaves the history
Left, Up. -/
theorem four_way_reference_witness :
    (filterToFourWayMode
        { inList := [false, false, true, true, false],
          dpadList := [DIRECTION_DOWN, DIRECTION_LEFT] } 5).map (fun p => p.2.dpadList)
      = some [DIRECTION_LEFT, DIRECTION_UP] :=
  (four_way_reference
    { inList := [false, false, true, true, false],
      dpadList := [DIRECTION_DOWN, DIRECTION_LEFT] } 5
    (fun d => by cases d <;> decide)).1

/-- C15. No applicable winner resolves to neutral: for each axis, when both
directions are set and the clock is more than 10 past `lastInputTime`, the axis
output has neither bit and `lastDirection` becomes none if (i) the mode is
first-input or second-input priority and no direction is remembered, or (ii)
the axis is horizontal and the mode is up-priority, whatever is remembered, or
(iii) the mode is none of Bypass, up-priority, first-input and second-input
priority (the Neutral mode). -/
theorem no_winner_neutral (mode : SOCDMode) (dpad currentTime : Nat) (s : SOCDState)
    (axis : Axis) (hboth : dpad &&& axis.mask = axis.mask)
    (_hout : 10 < sub32 currentTime (s.tracker axis).lastInputTime)
    (hcase : ((mode = SOCD_MODE_FIRST_INPUT_PRIORITY ∨ mode = SOCD_MODE_SECOND_INPUT_PRIORITY)
          ∧ (s.tracker axis).lastDirection = DIRECTION_NONE)
        ∨ (axis = Axis.Horizontal ∧ mode = SOCD_MODE_UP_PRIORITY)
        ∨ (mode ≠ SOCD_MODE_BYPASS ∧ mode ≠ SOCD_MODE_UP_PRIORITY
            ∧ mode ≠ SOCD_MODE_FIRST_INPUT_PRIORITY
            ∧ mode ≠ SOCD_MODE_SECOND_INPUT_PRIORITY)) :
    (runSOCDCleaner mode dpad currentTime s).1 &&& axis.mask = 0
      ∧ ((runSOCDCleaner mode dpad currentTime s).2.tracker axis).lastDirection
        = DIRECTION_NONE := by
  have hm : mode ≠ SOCD_MODE_BYPASS := by
    rcases hcase with ⟨h | h, -⟩ | ⟨-, h⟩ | ⟨h, -⟩
    · rw [h]; decide
    · rw [h]; decide
    · rw [h]; decide
    · exact h
  have h := no_winner_step mode dpad currentTime s axis hm hboth
    (by
      rcases hcase with h | h | ⟨-, h⟩
      · exact Or.inl h
      · exact Or.inr (Or.inl h)
      · exact Or.inr (Or.inr h))
  exact ⟨h.1, by rw [h.2]⟩

/-- Up-priority with Left remembered since 0: Left+Right at 50 gives no
horizontal bit and forgets Left. -/
theorem no_winner_neutral_witness :
    (runSOCDCleaner SOCD_MODE_UP_PRIORITY 12 50
        { upDownTracker := {},
          leftRightTracker := { lastInputTime := 0, lastDirection := DIRECTION_LEFT } }).1
        &&& Axis.Horizontal.mask = 0
      ∧ ((runSOCDCleaner SOCD_MODE_UP_PRIORITY 12 50
        { upDownTracker := {},
          leftRightTracker := { lastInputTime := 0, lastDirection := DIRECTION_LEFT } }).2.tracker
          Axis.Horizontal).lastDirection = DIRECTION_NONE :=
  no_winner_neutral SOCD_MODE_UP_PRIORITY 12 50
    { upDownTracker := {},
      leftRightTracker := { lastInputTime := 0, lastDirection := DIRECTION_LEFT } }
    Axis.Horizontal (by decide) (by decide) (Or.inr (Or.inl ⟨rfl, rfl⟩))

/-- C16. Neutral is sticky under first-input and second-input priority: if a
call in one of these modes with both directions of an axis set produced no bit
of the axis, then in every following run of calls in the same mode in which
both directions stay set the axis output is neutral at every call, for all
clock values; the same holds for every run in which each call has both or
neither direction of the axis set, and no direction is remembered after it, so
a winner needs a call with exactly one direction of the axis set first. -/
theorem neutral_sticky (mode : SOCDMode) (dpad0 t0 : Nat) (s : SOCDState) (axis : Axis)
    (hmode : mode = SOCD_MODE_FIRST_INPUT_PRIORITY ∨ mode = SOCD_MODE_SECOND_INPUT_PRIORITY)
    (hboth : dpad0 &&& axis.mask = axis.mask)
    (hneutral : (runSOCDCleaner mode dpad0 t0 s).1 &&& axis.mask = 0) :
    (∀ calls : List SOCDCall,
        (∀ c ∈ calls, c.mode = mode ∧ c.dpad &&& axis.mask = axis.mask) →
        (socdCalls (runSOCDCleaner mode dpad0 t0 s).2 calls).1.length = calls.length
          ∧ ∀ r ∈ (socdCalls (runSOCDCleaner mode dpad0 t0 s).2 calls).1,
              r &&& axis.mask = 0)
    ∧ (∀ calls : List SOCDCall,
        (∀ c ∈ calls, c.mode = mode
          ∧ (c.dpad &&& axis.mask = axis.mask ∨ c.dpad &&& axis.mask = 0)) →
        (∀ r ∈ (socdCalls (runSOCDCleaner mode dpad0 t0 s).2 calls).1, r &&& axis.mask = 0)
          ∧ ((socdCalls (runSOCDCleaner mode dpad0 t0 s).2 calls).2.tracker axis).lastDirection
            = DIRECTION_NONE) := by
  have hnone := neutral_conflict_forgets mode dpad0 t0 s axis hmode hboth hneutral
  have key : ∀ calls : List SOCDCall,
      (∀ c ∈ calls, c.mode = mode
        ∧ (c.dpad &&& axis.mask = axis.mask ∨ c.dpad &&& axis.mask = 0)) →
      (socdCalls (runSOCDCleaner mode dpad0 t0 s).2 calls).1.length = calls.length
        ∧ (∀ r ∈ (socdCalls (runSOCDCleaner mode dpad0 t0 s).2 calls).1, r &&& axis.mask = 0)
        ∧ (socdCalls (runSOCDCleaner mode dpad0 t0 s).2 calls).2.tracker axis
          = (runSOCDCleaner mode dpad0 t0 s).2.tracker axis := by
    intro calls hcalls
    refine socdCalls_axis_constant axis _ 0
      (fun c => c.mode = mode
        ∧ (c.dpad &&& axis.mask = axis.mask ∨ c.dpad &&& axis.mask = 0)) ?_ calls _ hcalls rfl
    intro c s1 hc hs1
    obtain ⟨hcm, hbits⟩ := hc
    have h := sticky_step c.mode c.dpad c.currentTime s1 axis (by rw [hcm]; exact hmode)
      (by rw [hs1]; exact hnone) hbits
    exact ⟨h.1, by rw [h.2, hs1]⟩
  constructor
  · intro calls hcalls
    have h := key calls (fun c hc => ⟨(hcalls c hc).1, Or.inl (hcalls c hc).2⟩)
    exact ⟨h.1, h.2.1⟩
  · intro calls hcalls
    have h := key calls hcalls
    exact ⟨h.2.1, by rw [h.2.2]; exact hnone⟩

/-- Up alone at 0, Up+Down at 5 (neutral, inside the window), and Up+Down again
at 100000 in first-input mode: still no vertical bit. -/
theorem neutral_sticky_witness :
    (runSOCDCleaner SOCD_MODE_FIRST_INPUT_PRIORITY 3 100000
        (runSOCDCleaner SOCD_MODE_FIRST_INPUT_PRIORITY 3 5
          (afterUpAlone SOCD_MODE_FIRST_INPUT_PRIORITY)).2).1 &&& Axis.Vertical.mask = 0 :=
  ((neutral_sticky SOCD_MODE_FIRST_INPUT_PRIORITY 3 5
    (afterUpAlone SOCD_MODE_FIRST_INPUT_PRIORITY) Axis.Vertical (Or.inl rfl) (by decide)
    (by decide)).1
    [{ mode := SOCD_MODE_FIRST_INPUT_PRIORITY, dpad := 3, currentTime := 100000 }]
    (by decide)).2 _ (List.mem_cons_self _ _)

/-- C17. The cleaner never invents a direction: for every mode other than
Bypass, every input mask, tracker state and clock value, each of the four
directional bits that is set in the result is set in the input, and every bit
of the result is a bit of the input. -/
theorem never_invents_direction (mode : SOCDMode) (dpad currentTime : Nat) (s : SOCDState)
    (hm : mode ≠ SOCD_MODE_BYPASS) :
    ((runSOCDCleaner mode dpad currentTime s).1 &&& GAMEPAD_MASK_UP ≠ 0 →
        dpad &&& GAMEPAD_MASK_UP ≠ 0)
      ∧ ((runSOCDCleaner mode dpad currentTime s).1 &&& GAMEPAD_MASK_DOWN ≠ 0 →
        dpad &&& GAMEPAD_MASK_DOWN ≠ 0)
      ∧ ((runSOCDCleaner mode dpad currentTime s).1 &&& GAMEPAD_MASK_LEFT ≠ 0 →
        dpad &&& GAMEPAD_MASK_LEFT ≠ 0)
      ∧ ((runSOCDCleaner mode dpad currentTime s).1 &&& GAMEPAD_MASK_RIGHT ≠ 0 →
        dpad &&& GAMEPAD_MASK_RIGHT ≠ 0)
      ∧ (runSOCDCleaner mode dpad currentTime s).1 &&& dpad
        = (runSOCDCleaner mode dpad currentTime s).1 := by
  have hv := cleanUpDown_subset mode dpad currentTime s.upDownTracker
  have hh := cleanLeftRight_subset mode dpad currentTime s.leftRightTracker
  have hv1 := cleanUpDown_fst_le mode dpad currentTime s.upDownTracker
  have hh1 := cleanLeftRight_fst_cases mode dpad currentTime s.leftRightTracker
  have e1 : dpad &&& GAMEPAD_MASK_UP = (dpad &&& 3) &&& 1 := by
    rw [Nat.and_assoc]; rfl
  have e2 : dpad &&& GAMEPAD_MASK_DOWN = (dpad &&& 3) &&& 2 := by
    rw [Nat.and_assoc]; rfl
  have e3 : dpad &&& GAMEPAD_MASK_LEFT = (dpad &&& 12) &&& 4 := by
    rw [Nat.and_assoc]; rfl
  have e4 : dpad &&& GAMEPAD_MASK_RIGHT = (dpad &&& 12) &&& 8 := by
    rw [Nat.and_assoc]; rfl
  rw [runSOCDCleaner_fst mode dpad currentTime s hm, e1, e2, e3, e4]
  generalize (cleanUpDown mode dpad currentTime 0 s.upDownTracker).1 = v at hv hv1
  generalize (cleanLeftRight mode dpad currentTime 0 s.leftRightTracker).1 = h at hh hh1
  have a1 : v &&& dpad = v := by
    have h3 : v &&& 3 = v := by rcases hv1 with k | k | k <;> rw [k] <;> decide
    calc v &&& dpad = (v &&& 3) &&& dpad := by rw [h3]
      _ = v &&& (dpad &&& 3) := by rw [Nat.and_assoc, Nat.and_comm 3 dpad]
      _ = v := hv
  have a2 : h &&& dpad = h := by
    have h3 : h &&& 12 = h := by rcases hh1 with k | k | k <;> rw [k] <;> decide
    calc h &&& dpad = (h &&& 12) &&& dpad := by rw [h3]
      _ = h &&& (dpad &&& 12) := by rw [Nat.and_assoc, Nat.and_comm 12 dpad]
      _ = h := hh
  refine ⟨?_, ?_, ?_, ?_, by rw [Nat.and_distrib_right, a1, a2]⟩ <;>
    simp only [GAMEPAD_MASK_UP, GAMEPAD_MASK_DOWN, GAMEPAD_MASK_LEFT, GAMEPAD_MASK_RIGHT] <;>
    rcases and_three_cases dpad with a | a | a | a <;>
    rcases and_twelve_cases dpad with b | b | b | b <;>
    rcases hv1 with k | k | k <;> rcases hh1 with l | l | l <;>
    simp only [a, b, k, l] at hv hh ⊢ <;> revert hv hh <;> decide

/-- All four directions pressed at 50 in second-input mode with Up and Left
remembered: every bit of the result is a bit of the input. -/
theorem never_invents_direction_witness :
    (runSOCDCleaner SOCD_MODE_SECOND_INPUT_PRIORITY 15 50
        { upDownTracker := { lastInputTime := 0, lastDirection := DIRECTION_UP },
          leftRightTracker := { lastInputTime := 0, lastDirection := DIRECTION_LEFT } }).1 &&& 15
      = (runSOCDCleaner SOCD_MODE_SECOND_INPUT_PRIORITY 15 50
        { upDownTracker := { lastInputTime := 0, lastDirection := DIRECTION_UP },
          leftRightTracker := { lastInputTime := 0, lastDirection := DIRECTION_LEFT } }).1 :=
  (never_invents_direction SOCD_MODE_SECOND_INPUT_PRIORITY 15 50
    { upDownTracker := { lastInputTime := 0, lastDirection := DIRECTION_UP },
      leftRightTracker := { lastInputTime := 0, lastDirection := DIRECTION_LEFT } }
    (by decide)).2.2.2.2

/-- C18. The window test is exact 32-bit modular arithmetic: for every mode
other than Bypass and each axis with both directions set, the call is inside
the window exactly when the integer difference `now - lastInputTime` reduced
modulo `2^32` is at most 10 (neutral output, direction forgotten) and outside
it otherwise (policy winner). Hence (i) if the clock wrapped, `now` being
`lastInputTime + e` modulo `2^32` with `e` at most 10, the call is inside the
window; and (ii) if `now` is smaller than `lastInputTime` by `d` with
`0 < d < 2^32 - 10`, the reduced difference is `2^32 - d`, more than 10, and
the call is treated as outside the window. -/
theorem window_test_modular (mode : SOCDMode) (dpad now : Nat) (s : SOCDState) (axis : Axis)
    (hm : mode ≠ SOCD_MODE_BYPASS) (hboth : dpad &&& axis.mask = axis.mask) :
    ((((now : Int) - ((s.tracker axis).lastInputTime : Int)) % 4294967296 ≤ 10 →
        (runSOCDCleaner mode dpad now s).1 &&& axis.mask = 0
          ∧ ((runSOCDCleaner mode dpad now s).2.tracker axis).lastDirection = DIRECTION_NONE)
      ∧ (10 < ((now : Int) - ((s.tracker axis).lastInputTime : Int)) % 4294967296 →
          ((s.tracker axis).lastDirection = DIRECTION_NONE
            ∨ axis.has (s.tracker axis).lastDirection = true) →
          (runSOCDCleaner mode dpad now s).1 &&& axis.mask
            = dirMask (policyWinner mode axis (s.tracker axis).lastDirection)))
    ∧ (∀ e : Nat, e ≤ 10 →
        now = ((s.tracker axis).lastInputTime + e) % 4294967296 →
        (runSOCDCleaner mode dpad now s).1 &&& axis.mask = 0
          ∧ ((runSOCDCleaner mode dpad now s).2.tracker axis).lastDirection = DIRECTION_NONE)
    ∧ (∀ d : Nat, 0 < d → d < 4294967296 - 10 → now + d = (s.tracker axis).lastInputTime →
        ((now : Int) - ((s.tracker axis).lastInputTime : Int)) % 4294967296
            = 4294967296 - (d : Int)
          ∧ (((s.tracker axis).lastDirection = DIRECTION_NONE
              ∨ axis.has (s.tracker axis).lastDirection = true) →
            (runSOCDCleaner mode dpad now s).1 &&& axis.mask
              = dirMask (policyWinner mode axis (s.tracker axis).lastDirection))) := by
  have hsub := sub32_eq_emod now (s.tracker axis).lastInputTime
  refine ⟨⟨?_, ?_⟩, ?_, ?_⟩
  · intro hw
    have hin : sub32 now (s.tracker axis).lastInputTime ≤ 10 := by omega
    have h := window_neutral mode dpad now s axis hm hboth hin
    exact ⟨h.1, by rw [h.2]⟩
  · intro hw hl
    exact outside_window_policy mode dpad now s axis hm hboth (by omega) hl
  · intro e he hnow2
    have hin : sub32 now (s.tracker axis).lastInputTime ≤ 10 := by
      unfold sub32
      omega
    have h := window_neutral mode dpad now s axis hm hboth hin
    exact ⟨h.1, by rw [h.2]⟩
  · intro d hd0 hd1 hback
    refine ⟨by omega, fun hl => ?_⟩
    exact outside_window_policy mode dpad now s axis hm hboth (by unfold sub32; omega) hl

/-- The clock wrapped: `lastInputTime = 2^32 - 3` and `now = 2` are 5 apart, so
Up+Down in up-priority mode gives no vertical bit and forgets Up. -/
theorem window_test_modular_witness :
    (runSOCDCleaner SOCD_MODE_UP_PRIORITY 3 2
        { upDownTracker := { lastInputTime := 4294967293, lastDirection := DIRECTION_UP },
          leftRightTracker := {} }).1 &&& Axis.Vertical.mask = 0
      ∧ ((runSOCDCleaner SOCD_MODE_UP_PRIORITY 3 2
        { upDownTracker := { lastInputTime := 4294967293, lastDirection := DIRECTION_UP },
          leftRightTracker := {} }).2.tracker Axis.Vertical).lastDirection = DIRECTION_NONE :=
  (window_test_modular SOCD_MODE_UP_PRIORITY 3 2
    { upDownTracker := { lastInputTime := 4294967293, lastDirection := DIRECTION_UP },
      leftRightTracker := {} } Axis.Vertical (by decide) (by decide)).2.1 5
    (by decide) (by decide)

/-- C19. Filter state invariant: every state reached from the initial state by
`filterToFourWayMode` calls satisfies the invariant (five flags; the history
holds only Up, Down, Left, Right, each at most once, at most four entries, and
holds a direction exactly when its flag is set); every inner `updateDpad` step
on a cardinal direction returns and keeps the invariant; and after a complete
call from such a state the held directions are exactly the directional bits set
in the input, so the result is `0` exactly when the input has no directional
bit and otherwise is a single direction mask that is set in the input. -/
theorem filter_state_invariant :
    (∀ masks : List Nat, ∃ outs sF,
        filterCalls FourWayState.init masks = some (outs, sF) ∧ sF.Valid)
    ∧ (∀ (s : FourWayState) (dpad : Nat) (d : DpadDirection), s.Valid →
        d ≠ DIRECTION_NONE →
        ∃ r s1, updateDpad s dpad d = some (r, s1) ∧ s1.Valid)
    ∧ (∀ (s : FourWayState) (dpad : Nat), s.Valid →
        ∃ r s1, filterToFourWayMode s dpad = some (r, s1) ∧ s1.Valid
          ∧ (∀ d : DpadDirection, s1.held d = pressed dpad d)
          ∧ (r = 0 ↔ dpad &&& 15 = 0)
          ∧ (r ≠ 0 →
              (r = GAMEPAD_MASK_UP ∨ r = GAMEPAD_MASK_DOWN ∨ r = GAMEPAD_MASK_LEFT
                ∨ r = GAMEPAD_MASK_RIGHT)
              ∧ dpad &&& r = r)) := by
  refine ⟨fun masks => filterCalls_valid masks _ valid_init, ?_, ?_⟩
  · intro s dpad d hs hd
    have hnone : DIRECTION_NONE ∉ s.dpadList := fun h => hs.2.1 _ h rfl
    exact ⟨_, _, updateDpad_eq_some s dpad d hd hnone, valid_step s dpad d hd hs⟩
  · intro s dpad hs
    have hnone : DIRECTION_NONE ∉ s.dpadList := fun h => hs.2.1 _ h rfl
    have hr := filterState_result s dpad hs
    exact ⟨_, _, filterToFourWayMode_eq_some s dpad hnone, valid_filterState s dpad hs,
      filterState_held s dpad hs, hr.1, hr.2⟩

/-- From the initial state the input Up+Left does not return `0`. -/
theorem filter_state_invariant_witness :
    (filterToFourWayMode FourWayState.init 5).map Prod.fst ≠ some 0 := by
  obtain ⟨r, s1, h, -, -, hz, -⟩ := filter_state_invariant.2.2 FourWayState.init 5 valid_init
  rw [h]
  intro h0
  have hr : r = 0 := Option.some.inj h0
  exact absurd (hz.mp hr) (by decide)

/-- C20. Mask lookup stays in bounds: `getMaskFromDirection` reads
`dpadMasks[d - 1]`, whose index is `-1`, outside the table, for
`DIRECTION_NONE` and within `0..3` for the four cardinal directions; an
`updateDpad` step that returns has looked up only cardinal directions (its
argument and the last element of the history); and every sequence of
`filterToFourWayMode` calls from the initial state returns at every call, so
the out-of-range lookup is never made. -/
theorem mask_lookup_in_bounds :
    ((DIRECTION_NONE.toNat : Int) - 1 = -1 ∧ getMaskFromDirection DIRECTION_NONE = none)
    ∧ (∀ d : DpadDirection, d ≠ DIRECTION_NONE →
        0 ≤ (d.toNat : Int) - 1 ∧ (d.toNat : Int) - 1 ≤ 3
          ∧ getMaskFromDirection d = some (dirMask d))
    ∧ (∀ (s : FourWayState) (dpad : Nat) (d : DpadDirection) (r : Nat) (s1 : FourWayState),
        updateDpad s dpad d = some (r, s1) →
        d ≠ DIRECTION_NONE
          ∧ ∀ last, s1.dpadList.getLast? = some last → last ≠ DIRECTION_NONE)
    ∧ (∀ masks : List Nat, ∃ outs sF,
        filterCalls FourWayState.init masks = some (outs, sF)
          ∧ outs.length = masks.length) := by
  refine ⟨⟨by decide, by decide⟩, ?_, updateDpad_lookups, ?_⟩
  · intro d hd
    refine ⟨?_, ?_, getMaskFromDirection_eq d hd⟩ <;>
      cases d <;> first | exact absurd rfl hd | decide
  · intro masks
    obtain ⟨outs, sF, h, hlen, -⟩ :=
      filterCalls_total masks FourWayState.init (by simp [FourWayState.init])
    exact ⟨outs, sF, h, hlen⟩

/-- The step on Right with the input Right from the initial state returns, and
its direction argument is a cardinal direction. -/
theorem mask_lookup_in_bounds_witness :
    updateDpad FourWayState.init 8 DIRECTION_RIGHT
        = some (GAMEPAD_MASK_RIGHT, updateDpadState FourWayState.init 8 DIRECTION_RIGHT)
      ∧ DIRECTION_RIGHT ≠ DIRECTION_NONE :=
  ⟨by decide,
    (mask_lookup_in_bounds.2.2.1 FourWayState.init 8 DIRECTION_RIGHT GAMEPAD_MASK_RIGHT
      (updateDpadState FourWayState.init 8 DIRECTION_RIGHT) (by decide)).1⟩

end GamepadState
